import Mathlib

/-!
# A shallow embedding of `src/main.c`

The program is a Wayland client that asks libdecor for a decorated window,
sets up EGL, and then dispatches events, drawing a solid colour after every
dispatch.  All state lives in one `struct client` and one `struct window`.

Everything the program asks of the outside world (return values of library
calls, the callbacks delivered while a dispatch or a roundtrip runs) is an
explicit input.  Everything it does to the outside world (library calls,
printing) is recorded in a trace.
-/

namespace BugRepro

/-! ## Data model -/

/-- An address handed out by a library; `0` is the null pointer. -/
abbrev Ptr := Nat

/-- The null pointer. -/
def NULL : Ptr := 0

/-- The two values `ret` takes in `main`. -/
inductive ExitCode where
  | EXIT_SUCCESS
  | EXIT_FAILURE
deriving DecidableEq

/-- Named constants of the Wayland, EGL and GL headers that `main.c` uses but
does not define.  Their values are left open. -/
structure Lib where
  wl_compositor_interface_name : String
  wl_seat_interface_name : String
  wl_shm_interface_name : String
  WL_SEAT_CAPABILITY_POINTER : Nat
  WL_SHM_FORMAT_XRGB8888 : Nat
  EGL_NO_CONTEXT : Ptr
  EGL_NO_SURFACE : Ptr
  EGL_OPENGL_API : Nat
  GL_COLOR_BUFFER_BIT : Nat

/-- The constant `default_width` of main.c, line 17. -/
def default_width : Nat := 600

/-- The constant `default_height` of main.c, line 18. -/
def default_height : Nat := 400

/-- The record `struct client`, lines 20-31. -/
structure Client where
  display : Ptr
  compositor : Ptr
  seat : Ptr
  capabilities : Nat
  pointer : Ptr
  cursor_buffer : Ptr
  shm : Ptr
  cursor_surface : Ptr
  egl_display : Ptr
  egl_context : Ptr
deriving DecidableEq

/-- The record `struct window`, lines 33-45.  The program has one client and
one window, so the `client` pointer is modelled by holding the client. The
field `open` is spelled `open_` because `open` is reserved. -/
structure Window where
  client : Client
  surface : Ptr
  frame : Ptr
  egl_window : Ptr
  egl_surface : Ptr
  content_width : Int
  content_height : Int
  floating_width : Int
  floating_height : Int
  open_ : Bool
  configured : Bool
deriving DecidableEq

/-- What `calloc(1, sizeof(struct client))` returns: all fields zero. -/
def Client.zero : Client :=
  { display := NULL, compositor := NULL, seat := NULL, capabilities := 0,
    pointer := NULL, cursor_buffer := NULL, shm := NULL, cursor_surface := NULL,
    egl_display := NULL, egl_context := NULL }

/-- What `calloc(1, sizeof(struct window))` gives once `window->client` is
set: all other fields zero. -/
def Window.zero (client : Client) : Window :=
  { client := client, surface := NULL, frame := NULL, egl_window := NULL,
    egl_surface := NULL, content_width := 0, content_height := 0,
    floating_width := 0, floating_height := 0, open_ := false,
    configured := false }

/-- A `struct libdecor_configuration*` as the program can observe it: its
address, and what `libdecor_configuration_get_content_size` answers for it
(`none` when the call returns false and leaves width and height unwritten). -/
structure Configuration where
  addr : Ptr
  content_size : Option (Int × Int)
deriving DecidableEq

/-- A `struct libdecor_state*` as built by `libdecor_state_new`. -/
structure State where
  content_width : Int
  content_height : Int
deriving DecidableEq

/-- The arguments of one `registry_listener.global` callback; `bound` is what
`wl_registry_bind` returns if it is called. -/
structure Global where
  wl_registry : Ptr
  name : Nat
  interface : String
  version : Nat
  bound : Ptr
deriving DecidableEq

/-- One callback delivered to the program, with the values the library calls
made inside the callback will return. -/
inductive Event where
  /-- Callback `frame_interface.configure`; `is_floating` is the answer of
  `libdecor_frame_is_floating`. -/
  | configure (frame : Ptr) (configuration : Configuration) (is_floating : Bool)
  /-- Callback `frame_interface.close`. -/
  | close (frame : Ptr)
  /-- Callback `frame_interface.commit`. -/
  | commit (frame : Ptr)
  /-- Callback `libdecor_interface.error`. -/
  | error (code : Int) (message : String)
  /-- Callback `registry_listener.global`. -/
  | global (g : Global)
  /-- Callback `registry_listener.global_remove`. -/
  | global_remove (wl_registry : Ptr) (name : Nat)
  /-- Callback `pointer_listener.enter`. -/
  | enter (pointer : Ptr) (serial : Nat) (surface : Ptr) (sx sy : Int)
  /-- Callback `pointer_listener.leave`. -/
  | leave (pointer : Ptr) (serial : Nat) (surface : Ptr)
  /-- Callback `pointer_listener.motion`. -/
  | motion (pointer : Ptr) (serial : Nat) (sx sy : Int)
  /-- Callback `pointer_listener.button`. -/
  | button (pointer : Ptr) (serial time btn state : Nat)
  /-- Callback `pointer_listener.axis`. -/
  | axis (pointer : Ptr) (serial axis : Nat) (value : Int)
  /-- Callback `seat_listener.capabilities`; `got` is what
  `wl_seat_get_pointer` returns if it is called. -/
  | capabilities (seat : Ptr) (caps : Nat) (got : Ptr)
deriving DecidableEq

/-- A call the program makes into a library.  Floats are written as the
rationals they are computed from. -/
inductive Call where
  | printf (s : String)
  | fprintf_stderr (s : String)
  | perror (s : String)
  | exit (status : ExitCode)
  | libdecor_configuration_get_content_size (configuration : Ptr) (frame : Ptr)
  | wl_egl_window_resize (egl_window : Ptr) (width height dx dy : Int)
  | libdecor_state_new (width height : Int)
  | libdecor_frame_commit (frame : Ptr) (state : State) (configuration : Ptr)
  | libdecor_state_free (state : State)
  | libdecor_frame_is_floating (frame : Ptr)
  | eglSwapBuffers (dpy : Ptr) (surface : Ptr)
  | wl_registry_bind (wl_registry : Ptr) (name : Nat) (interface : String)
      (version : Nat)
  | wl_pointer_set_cursor (pointer : Ptr) (serial : Nat) (surface : Ptr)
      (hotspot_x hotspot_y : Int)
  | wl_pointer_destroy (pointer : Ptr)
  | wl_seat_get_pointer (seat : Ptr)
  | wl_pointer_add_listener (pointer : Ptr)
  | memfd_create (name : String)
  | ftruncate (fd : Int) (length : Nat)
  | mmap (length : Nat) (fd : Int)
  | wl_shm_create_pool (shm : Ptr) (fd : Int) (size : Nat)
  | wl_shm_pool_create_buffer (pool : Ptr) (offset width height stride : Int)
      (format : Nat)
  | wl_shm_pool_destroy (pool : Ptr)
  | memcpy_cursor_bitmap
  | munmap (length : Nat)
  | close (fd : Int)
  | eglGetDisplay (display : Ptr)
  | eglInitialize (dpy : Ptr)
  | eglBindAPI (api : Nat)
  | eglChooseConfig (dpy : Ptr)
  | eglCreateContext (dpy : Ptr) (config : Ptr) (share : Ptr)
  | wl_compositor_create_surface (compositor : Ptr)
  | wl_egl_window_create (surface : Ptr) (width height : Int)
  | eglCreateWindowSurface (dpy : Ptr) (config : Ptr) (egl_window : Ptr)
  | eglMakeCurrent (dpy : Ptr) (draw read : Ptr) (ctx : Ptr)
  | wl_surface_attach (surface : Ptr) (buffer : Ptr) (x y : Int)
  | wl_surface_commit (surface : Ptr)
  | wl_surface_destroy (surface : Ptr)
  | eglDestroySurface (dpy : Ptr) (surface : Ptr)
  | wl_egl_window_destroy (egl_window : Ptr)
  | eglDestroyContext (dpy : Ptr) (ctx : Ptr)
  | eglTerminate (dpy : Ptr)
  | glClearColor (red green blue alpha : ℚ)
  | glClear (mask : Nat)
  | wl_display_connect
  | wl_display_get_registry (display : Ptr)
  | wl_registry_add_listener (wl_registry : Ptr)
  | wl_display_roundtrip (display : Ptr)
  | wl_seat_add_listener (seat : Ptr)
  | libdecor_new (display : Ptr)
  | libdecor_decorate (context : Ptr) (surface : Ptr)
  | libdecor_frame_set_app_id (frame : Ptr) (app_id : String)
  | libdecor_frame_set_title (frame : Ptr) (title : String)
  | libdecor_frame_map (frame : Ptr)
  | libdecor_dispatch (context : Ptr) (timeout : Int)
  | libdecor_unref (context : Ptr)
  | free_window
  | free_client

/-- One entry of the trace of a run. -/
inductive Act where
  /-- A library call. -/
  | call (c : Call)
  /-- The library enters one of the callbacks of the program. -/
  | callback (e : Event)
  /-- The program enters `draw`; `window` is the window as it is then. -/
  | draw (window : Window)
  /-- A call of `libdecor_dispatch` returns `ret` to `main`. -/
  | dispatched (ret : Int)


/-! ## The callbacks -/

/-- The function `frame_configure`, lines 47-80. -/
def frame_configure (frame : Ptr) (configuration : Configuration)
    (is_floating : Bool) (window : Window) : Window × List Call :=
  let size : Int × Int :=
    match configuration.content_size with
    | some (width, height) => (width, height)
    | none => (window.floating_width, window.floating_height)
  let width := size.1
  let height := size.2
  let window := { window with content_width := width, content_height := height }
  let resize := Call.wl_egl_window_resize window.egl_window
    window.content_width window.content_height 0 0
  let state : State := { content_width := width, content_height := height }
  let query := Call.libdecor_frame_is_floating window.frame
  let window :=
    if is_floating then
      { window with floating_width := width, floating_height := height }
    else window
  ({ window with configured := true },
    [Call.libdecor_configuration_get_content_size configuration.addr frame,
     resize,
     Call.libdecor_state_new width height,
     Call.libdecor_frame_commit frame state configuration.addr,
     Call.libdecor_state_free state,
     query])

/-- The function `frame_close`, lines 82-86. -/
def frame_close (_frame : Ptr) (window : Window) : Window × List Call :=
  ({ window with open_ := false }, [])

/-- The function `frame_commit`, lines 88-92. -/
def frame_commit (_frame : Ptr) (window : Window) : Window × List Call :=
  (window, [Call.eglSwapBuffers window.client.display window.egl_surface])

/-- The function `libdecor_error`, lines 100-107: it prints and calls
`exit`, so it does not return. -/
def libdecor_error (error : Int) (message : String) : List Call :=
  [Call.fprintf_stderr
     ("libdecor error (" ++ toString error ++ "): " ++ message ++ "\n"),
   Call.exit ExitCode.EXIT_FAILURE]

/-- The function `registry_global`, lines 113-130; its user data is the
client. -/
def registry_global (lib : Lib) (client : Client) (g : Global) :
    Client × List Call :=
  if g.interface = lib.wl_compositor_interface_name then
    ({ client with compositor := g.bound },
      [Call.wl_registry_bind g.wl_registry g.name
        lib.wl_compositor_interface_name 4])
  else if g.interface = lib.wl_seat_interface_name ∧ client.seat = NULL then
    ({ client with seat := g.bound },
      [Call.wl_registry_bind g.wl_registry g.name lib.wl_seat_interface_name 1])
  else if g.interface = lib.wl_shm_interface_name then
    ({ client with shm := g.bound },
      [Call.wl_registry_bind g.wl_registry g.name lib.wl_shm_interface_name 1])
  else (client, [])

/-- The function `registry_global_remove`, lines 132-136: its body is
empty. -/
def registry_global_remove (client : Client) (_wl_registry : Ptr)
    (_name : Nat) : Client × List Call :=
  (client, [])

/-- The function `pointer_enter_handler`, lines 143-159. -/
def pointer_enter_handler (window : Window) (pointer : Ptr) (serial : Nat)
    (surface : Ptr) (_sxW _syW : Int) : Window × List Call :=
  if surface ≠ window.surface then (window, [])
  else
    (window,
      [Call.printf "pointer_enter\n",
       Call.wl_pointer_set_cursor pointer serial window.client.cursor_surface
         4 4])

/-- The function `pointer_leave_handler`, lines 161-174. -/
def pointer_leave_handler (window : Window) (_pointer : Ptr) (_serial : Nat)
    (surface : Ptr) : Window × List Call :=
  if surface ≠ window.surface then (window, [])
  else (window, [Call.printf "pointer_leave\n"])

/-- The function `pointer_motion_handler`, lines 176-186: its body is
empty. -/
def pointer_motion_handler (window : Window) (_pointer : Ptr) (_serial : Nat)
    (_sxW _syW : Int) : Window × List Call :=
  (window, [])

/-- The function `pointer_button_handler`, lines 188-195: its body is
empty. -/
def pointer_button_handler (window : Window) (_pointer : Ptr)
    (_serial _time _button _stateW : Nat) : Window × List Call :=
  (window, [])

/-- The function `pointer_axis_handler`, lines 197-203: its body is empty. -/
def pointer_axis_handler (window : Window) (_pointer : Ptr)
    (_serial _axis : Nat) (_value : Int) : Window × List Call :=
  (window, [])

/-- The function `seat_capabilities_handler`, lines 213-232; `got` is what
`wl_seat_get_pointer` returns if it is called. -/
def seat_capabilities_handler (lib : Lib) (window : Window) (_seat : Ptr)
    (capabilities : Nat) (got : Ptr) : Window × List Call :=
  let client := { window.client with capabilities := capabilities }
  let hasPointer : Bool :=
    decide (capabilities &&& lib.WL_SEAT_CAPABILITY_POINTER ≠ 0)
  if !hasPointer && decide (client.pointer ≠ NULL) then
    ({ window with client := { client with pointer := NULL } },
      [Call.printf "lost pointer capability\n",
       Call.wl_pointer_destroy client.pointer])
  else if hasPointer && decide (client.pointer = NULL) then
    ({ window with client := { client with pointer := got } },
      [Call.printf "acquired pointer capability\n",
       Call.wl_seat_get_pointer client.seat,
       Call.wl_pointer_add_listener got])
  else ({ window with client := client }, [])

/-- What one callback does: the window after it, the calls it makes, and
whether it ended the process with `exit`.  The listener tables of lines
94-98, 109-111, 138-141, 205-211 and 234-236 say which function runs. -/
def invoke (lib : Lib) (e : Event) (window : Window) :
    Window × List Call × Bool :=
  match e with
  | Event.configure frame configuration is_floating =>
    let r := frame_configure frame configuration is_floating window
    (r.1, r.2, false)
  | Event.close frame =>
    let r := frame_close frame window
    (r.1, r.2, false)
  | Event.commit frame =>
    let r := frame_commit frame window
    (r.1, r.2, false)
  | Event.error code message => (window, libdecor_error code message, true)
  | Event.global g =>
    let r := registry_global lib window.client g
    ({ window with client := r.1 }, r.2, false)
  | Event.global_remove wl_registry name =>
    let r := registry_global_remove window.client wl_registry name
    ({ window with client := r.1 }, r.2, false)
  | Event.enter pointer serial surface sx sy =>
    let r := pointer_enter_handler window pointer serial surface sx sy
    (r.1, r.2, false)
  | Event.leave pointer serial surface =>
    let r := pointer_leave_handler window pointer serial surface
    (r.1, r.2, false)
  | Event.motion pointer serial sx sy =>
    let r := pointer_motion_handler window pointer serial sx sy
    (r.1, r.2, false)
  | Event.button pointer serial time btn state =>
    let r := pointer_button_handler window pointer serial time btn state
    (r.1, r.2, false)
  | Event.axis pointer serial axis value =>
    let r := pointer_axis_handler window pointer serial axis value
    (r.1, r.2, false)
  | Event.capabilities seat caps got =>
    let r := seat_capabilities_handler lib window seat caps got
    (r.1, r.2, false)

/-- The result of running a batch of callbacks. -/
structure Delivered where
  window : Window
  trace : List Act
  exited : Bool

/-- The callbacks delivered during one `libdecor_dispatch` or
`wl_display_roundtrip`, in order; a callback that calls `exit` ends the
batch. -/
def callbacks (lib : Lib) : List Event → Window → Delivered
  | [], window => { window := window, trace := [], exited := false }
  | e :: es, window =>
    let r := invoke lib e window
    if r.2.2 then
      { window := r.1, trace := Act.callback e :: r.2.1.map Act.call,
        exited := true }
    else
      let rest := callbacks lib es r.1
      { window := rest.window,
        trace := Act.callback e :: (r.2.1.map Act.call ++ rest.trace),
        exited := rest.exited }


/-! ## Set-up, drawing and tear-down -/

/-- The table `cursor_bitmap`, lines 238-245. -/
def cursor_bitmap : List Nat :=
  [0x000000, 0x000000, 0x000000, 0x000000,
   0x000000, 0xFFFFFF, 0xFFFFFF, 0x000000,
   0x000000, 0xFFFFFF, 0xFFFFFF, 0x000000,
   0x000000, 0x000000, 0x000000, 0x000000]

/-- The value of `sizeof cursor_bitmap`: four bytes for each entry. -/
def sizeof_cursor_bitmap : Nat := 4 * cursor_bitmap.length

/-- What the library calls made by `setup` and `create_cursor_buffer`
return.  A Boolean field is false when the call reports failure
(`EGL_FALSE`, `MAP_FAILED`). -/
structure SetupEnv where
  egl_display : Ptr
  eglInitialize : Bool
  eglBindAPI : Bool
  eglChooseConfig : Bool
  config : Ptr
  egl_context : Ptr
  surface : Ptr
  egl_window : Ptr
  egl_surface : Ptr
  memfd : Int
  ftruncate : Int
  mmap : Bool
  pool : Ptr
  cursor_buffer : Ptr
  cursor_surface : Ptr

/-- The function `create_cursor_buffer`, lines 247-281. -/
def create_cursor_buffer (lib : Lib) (env : SetupEnv) (client : Client) :
    Bool × Client × List Call :=
  let fd := env.memfd
  let c0 := [Call.memfd_create "cursor"]
  if fd < 0 then
    (false, client,
      c0 ++ [Call.perror "failed to create cursor shared memory"])
  else
    let c1 := c0 ++ [Call.ftruncate fd sizeof_cursor_bitmap]
    if env.ftruncate < 0 then
      (false, client,
        c1 ++ [Call.perror "failed to ftruncate cursor shared memory",
               Call.close fd])
    else
      let c2 := c1 ++ [Call.mmap sizeof_cursor_bitmap fd]
      if !env.mmap then
        (false, client,
          c2 ++ [Call.perror "failed to map memory for cursor", Call.close fd])
      else
        (true, { client with cursor_buffer := env.cursor_buffer },
          c2 ++ [Call.wl_shm_create_pool client.shm fd sizeof_cursor_bitmap,
                 Call.wl_shm_pool_create_buffer env.pool 0 4 4 16
                   lib.WL_SHM_FORMAT_XRGB8888,
                 Call.wl_shm_pool_destroy env.pool,
                 Call.memcpy_cursor_bitmap,
                 Call.munmap sizeof_cursor_bitmap,
                 Call.close fd])

/-- The function `setup`, lines 283-358. -/
def setup (lib : Lib) (env : SetupEnv) (window : Window) :
    Bool × Window × List Call :=
  let window :=
    { window with client := { window.client with egl_display := env.egl_display } }
  let c0 := [Call.eglGetDisplay window.client.display,
             Call.eglInitialize window.client.egl_display]
  if !env.eglInitialize then
    (false, window, c0 ++ [Call.fprintf_stderr "cannot initialise EGL!\n"])
  else
    let c1 := c0 ++ [Call.eglBindAPI lib.EGL_OPENGL_API]
    if !env.eglBindAPI then
      (false, window, c1 ++ [Call.fprintf_stderr "cannot bind EGL API!\n"])
    else
      let c2 := c1 ++ [Call.eglChooseConfig window.client.egl_display]
      if !env.eglChooseConfig then
        (false, window,
          c2 ++ [Call.fprintf_stderr "no matching EGL configurations!\n"])
      else
        let c3 := c2 ++ [Call.eglCreateContext window.client.egl_display
                           env.config lib.EGL_NO_CONTEXT]
        let window :=
          { window with
            client := { window.client with egl_context := env.egl_context } }
        if window.client.egl_context = lib.EGL_NO_CONTEXT then
          (false, window, c3 ++ [Call.fprintf_stderr "no EGL context!\n"])
        else
          let c4 := c3 ++
            [Call.wl_compositor_create_surface window.client.compositor]
          let window := { window with surface := env.surface }
          let c5 := c4 ++
            [Call.wl_egl_window_create window.surface default_width
               default_height]
          let window := { window with egl_window := env.egl_window }
          let c6 := c5 ++
            [Call.eglCreateWindowSurface window.client.egl_display env.config
               window.egl_window]
          let window := { window with egl_surface := env.egl_surface }
          let c7 := c6 ++
            [Call.eglMakeCurrent window.client.egl_display window.egl_surface
               window.egl_surface window.client.egl_context]
          let r := create_cursor_buffer lib env window.client
          let window := { window with client := r.2.1 }
          let c8 := c7 ++ r.2.2
          if !r.1 then (false, window, c8)
          else
            let c9 := c8 ++
              [Call.wl_compositor_create_surface window.client.compositor]
            let window :=
              { window with
                client :=
                  { window.client with cursor_surface := env.cursor_surface } }
            (true, window,
              c9 ++
                [Call.wl_surface_attach window.client.cursor_surface
                   window.client.cursor_buffer 0 0,
                 Call.wl_surface_commit window.client.cursor_surface])

/-- The function `cleanup`, lines 360-393. -/
def cleanup (lib : Lib) (window : Window) : List Call :=
  (if window.client.egl_display ≠ NULL then
    [Call.eglMakeCurrent window.client.egl_display lib.EGL_NO_SURFACE
       lib.EGL_NO_SURFACE lib.EGL_NO_CONTEXT]
   else []) ++
  (if window.client.cursor_surface ≠ NULL then
    [Call.wl_surface_destroy window.client.cursor_surface]
   else []) ++
  (if window.egl_surface ≠ NULL then
    [Call.eglDestroySurface window.client.egl_display window.egl_surface]
   else []) ++
  (if window.egl_window ≠ NULL then
    [Call.wl_egl_window_destroy window.egl_window]
   else []) ++
  (if window.surface ≠ NULL then [Call.wl_surface_destroy window.surface]
   else []) ++
  (if window.client.egl_context ≠ NULL then
    [Call.eglDestroyContext window.client.egl_display
       window.client.egl_context]
   else []) ++
  (if window.client.egl_display ≠ NULL then
    [Call.eglTerminate window.client.egl_display]
   else [])

/-- The function `draw`, lines 395-402.  The three entries of `rgb` are the
quotient `0x20 / (float)0xFF`. -/
def draw (lib : Lib) (window : Window) : List Call :=
  let rgb : List ℚ := [0x20 / 0xFF, 0x20 / 0xFF, 0x20 / 0xFF]
  [Call.glClearColor (rgb.getD 0 0) (rgb.getD 1 0) (rgb.getD 2 0) 1,
   Call.glClear lib.GL_COLOR_BUFFER_BIT,
   Call.eglSwapBuffers window.client.egl_display window.egl_surface]


/-! ## The function `main` -/

/-- What one call of `libdecor_dispatch` does: the callbacks it delivers and
the value it returns. -/
structure Dispatch where
  events : List Event
  ret : Int

/-- Everything the outside world contributes to one run of `main`. -/
structure Env where
  /-- Result of `wl_display_connect`. -/
  display : Ptr
  /-- Result of `wl_display_get_registry`. -/
  wl_registry : Ptr
  /-- The globals announced during the roundtrip of line 422. -/
  globals : List Global
  /-- Results of the calls made by `setup`. -/
  setup : SetupEnv
  /-- Result of `libdecor_new`. -/
  context : Ptr
  /-- Result of `libdecor_decorate`. -/
  frame : Ptr
  /-- Callbacks delivered during the roundtrip of line 444. -/
  roundtrip1 : List Event
  /-- Callbacks delivered during the roundtrip of line 445. -/
  roundtrip2 : List Event
  /-- The successive calls of `libdecor_dispatch`. -/
  dispatches : List Dispatch

/-- How a run ends. -/
inductive Outcome where
  /-- The function `main` returned `ret`. -/
  | returned (ret : ExitCode)
  /-- A callback called `exit`. -/
  | exited (status : ExitCode)
  /-- The dispatches of the environment are used up and a loop of `main` is
  waiting for the next one. -/
  | running
deriving DecidableEq

/-- A run of `main`: how it ends, the window at that point (none when no
window was allocated), and everything it did. -/
structure Run where
  outcome : Outcome
  window : Option Window
  trace : List Act

/-- The run `r` with the trace `t` placed before it. -/
def Run.after (t : List Act) (r : Run) : Run :=
  { r with trace := t ++ r.trace }

/-- The callbacks of the roundtrip of line 422.  Only the registry listener
is registered then, and its user data is the client. -/
def registry_roundtrip (lib : Lib) : List Global → Client → Client × List Act
  | [], client => (client, [])
  | g :: gs, client =>
    let r := registry_global lib client g
    let rest := registry_roundtrip lib gs r.1
    (rest.1, Act.callback (Event.global g) :: (r.2.map Act.call ++ rest.2))

/-- One call `libdecor_dispatch(context, 0)`. -/
def libdecor_dispatch (lib : Lib) (context : Ptr) (d : Dispatch)
    (window : Window) : Delivered :=
  let r := callbacks lib d.events window
  { r with trace := Act.call (Call.libdecor_dispatch context 0) :: r.trace }

/-- One call `wl_display_roundtrip(display)`. -/
def wl_display_roundtrip (lib : Lib) (display : Ptr) (events : List Event)
    (window : Window) : Delivered :=
  let r := callbacks lib events window
  { r with trace := Act.call (Call.wl_display_roundtrip display) :: r.trace }

/-- How a loop of `main` is left. -/
inductive Next where
  /-- The loop test failed. -/
  | done
  /-- The statement `goto out` with the given value of `ret`. -/
  | goto_out (ret : ExitCode)
  /-- A callback called `exit`. -/
  | exited
  /-- The loop needs a dispatch and the environment has none left. -/
  | pending
deriving DecidableEq

/-- The result of running a loop of `main`; `rest` holds the dispatches the
loop did not use. -/
structure Loop where
  window : Window
  trace : List Act
  next : Next
  rest : List Dispatch

/-- The loop of lines 447-452: `while (!window->configured)`. -/
def wait_configured (lib : Lib) (context : Ptr) :
    List Dispatch → Window → Loop
  | [], window =>
    if !window.configured then
      { window := window, trace := [], next := Next.pending, rest := [] }
    else { window := window, trace := [], next := Next.done, rest := [] }
  | d :: ds, window =>
    if !window.configured then
      let r := libdecor_dispatch lib context d window
      if r.exited then
        { window := r.window, trace := r.trace, next := Next.exited, rest := ds }
      else if d.ret < 0 then
        { window := r.window, trace := r.trace ++ [Act.dispatched d.ret],
          next := Next.goto_out ExitCode.EXIT_FAILURE, rest := ds }
      else
        let l := wait_configured lib context ds r.window
        { l with trace := r.trace ++ Act.dispatched d.ret :: l.trace }
    else { window := window, trace := [], next := Next.done, rest := d :: ds }

/-- The loop of lines 454-460: `while (window->open)`. -/
def draw_loop (lib : Lib) (context : Ptr) : List Dispatch → Window → Loop
  | [], window =>
    if window.open_ then
      { window := window, trace := [], next := Next.pending, rest := [] }
    else { window := window, trace := [], next := Next.done, rest := [] }
  | d :: ds, window =>
    if window.open_ then
      let r := libdecor_dispatch lib context d window
      if r.exited then
        { window := r.window, trace := r.trace, next := Next.exited, rest := ds }
      else if d.ret < 0 then
        { window := r.window, trace := r.trace ++ [Act.dispatched d.ret],
          next := Next.goto_out ExitCode.EXIT_FAILURE, rest := ds }
      else
        let l := draw_loop lib context ds r.window
        { l with
          trace := r.trace ++
            Act.dispatched d.ret ::
              Act.draw r.window :: ((draw lib r.window).map Act.call ++ l.trace) }
    else { window := window, trace := [], next := Next.done, rest := d :: ds }

/-- The code after the label `out`, lines 462-470. -/
def out (lib : Lib) (context : Ptr) (window : Window) (ret : ExitCode) : Run :=
  { outcome := Outcome.returned ret,
    window := some window,
    trace :=
      (if context ≠ NULL then [Act.call (Call.libdecor_unref context)] else [])
        ++ (cleanup lib window).map Act.call
        ++ [Act.call Call.free_window, Act.call Call.free_client] }

/-- How `main` goes on once a loop is left: `continue_` is the code that
follows the loop. -/
def leave (lib : Lib) (context : Ptr) (l : Loop) (continue_ : Run) : Run :=
  match l.next with
  | Next.done => continue_
  | Next.goto_out r => out lib context l.window r
  | Next.exited =>
    { outcome := Outcome.exited ExitCode.EXIT_FAILURE, window := some l.window,
      trace := [] }
  | Next.pending =>
    { outcome := Outcome.running, window := some l.window, trace := [] }

/-- Lines 447-470 of `main`: the two loops and the code after `out`. -/
def main_loops (lib : Lib) (context : Ptr) (ret : ExitCode)
    (dispatches : List Dispatch) (window : Window) : Run :=
  let l1 := wait_configured lib context dispatches window
  Run.after l1.trace
    (leave lib context l1
      (let l2 := draw_loop lib context l1.rest l1.window
       Run.after l2.trace
         (leave lib context l2 (out lib context l2.window ret))))

/-- Lines 435-470 of `main`: what follows a successful `setup`. -/
def main_decorate (lib : Lib) (env : Env) (ret : ExitCode) (window : Window) :
    Run :=
  let context := env.context
  let t0 :=
    [Act.call (Call.wl_seat_add_listener window.client.seat),
     Act.call (Call.libdecor_new window.client.display),
     Act.call (Call.libdecor_decorate context window.surface)]
  let window := { window with frame := env.frame }
  let t1 := t0 ++
    [Act.call (Call.libdecor_frame_set_app_id window.frame "bugrepro"),
     Act.call (Call.libdecor_frame_set_title window.frame "bugrepro"),
     Act.call (Call.libdecor_frame_map window.frame)]
  let r1 := wl_display_roundtrip lib window.client.display env.roundtrip1 window
  if r1.exited then
    { outcome := Outcome.exited ExitCode.EXIT_FAILURE, window := some r1.window,
      trace := t1 ++ r1.trace }
  else
    let r2 :=
      wl_display_roundtrip lib r1.window.client.display env.roundtrip2 r1.window
    if r2.exited then
      { outcome := Outcome.exited ExitCode.EXIT_FAILURE,
        window := some r2.window, trace := t1 ++ r1.trace ++ r2.trace }
    else
      Run.after (t1 ++ r1.trace ++ r2.trace)
        (main_loops lib context ret env.dispatches r2.window)

/-- The window as lines 424-429 of `main` initialise it. -/
def main_window (client : Client) : Window :=
  { Window.zero client with
    open_ := true, configured := false,
    floating_width := default_width, floating_height := default_height }

/-- The client as it is after the roundtrip of line 422. -/
def main_client (lib : Lib) (env : Env) : Client :=
  (registry_roundtrip lib env.globals
    { Client.zero with display := env.display }).1

/-- The function `main`, lines 404-471. -/
def main (lib : Lib) (env : Env) : Run :=
  let context : Ptr := NULL
  let ret := ExitCode.EXIT_SUCCESS
  let client := { Client.zero with display := env.display }
  let t0 := [Act.call Call.wl_display_connect]
  if client.display = NULL then
    { outcome := Outcome.returned ExitCode.EXIT_FAILURE, window := none,
      trace := t0 ++
        [Act.call (Call.fprintf_stderr "no wayland connection\n"),
         Act.call Call.free_client] }
  else
    let g := registry_roundtrip lib env.globals client
    let t1 := t0 ++
      [Act.call (Call.wl_display_get_registry client.display),
       Act.call (Call.wl_registry_add_listener env.wl_registry),
       Act.call (Call.wl_display_roundtrip client.display)] ++ g.2
    let client := main_client lib env
    let window := main_window client
    let s := setup lib env.setup window
    let window := s.2.1
    let t2 := t1 ++ s.2.2.map Act.call
    if !s.1 then Run.after t2 (out lib context window ret)
    else Run.after t2 (main_decorate lib env ret window)


/-! ## Reading a trace -/

/-- The event is a close of the frame. -/
def Event.is_close : Event → Bool
  | Event.close _ => true
  | _ => false

/-- The event is a configure of the frame. -/
def Event.is_configure : Event → Bool
  | Event.configure _ _ _ => true
  | _ => false

/-- The entry is an entry into `draw`. -/
def Act.is_draw : Act → Bool
  | Act.draw _ => true
  | _ => false

/-- The entry is an entry into `frame_close`. -/
def Act.is_close : Act → Bool
  | Act.callback e => e.is_close
  | _ => false

/-- The entry is an entry into `frame_configure`. -/
def Act.is_configure : Act → Bool
  | Act.callback e => e.is_configure
  | _ => false

/-- The entry is a call of `libdecor_dispatch`. -/
def Act.is_dispatch : Act → Bool
  | Act.call (Call.libdecor_dispatch _ _) => true
  | _ => false

/-- The entry prints something: `printf`, `fprintf(stderr, ...)` or
`perror`. -/
def Act.is_print : Act → Bool
  | Act.call (Call.printf _) => true
  | Act.call (Call.fprintf_stderr _) => true
  | Act.call (Call.perror _) => true
  | _ => false

/-- The entry is a `libdecor_dispatch` returning a negative value. -/
def Act.is_failure : Act → Bool
  | Act.dispatched ret => decide (ret < 0)
  | _ => false

/-- The entry is a `libdecor_dispatch` returning zero or more. -/
def Act.is_success : Act → Bool
  | Act.dispatched ret => decide (0 ≤ ret)
  | _ => false

/-- The number of times the trace enters `draw`. -/
def draws (t : List Act) : Nat := t.countP Act.is_draw

/-- The trace has no call of `libdecor_dispatch` and no entry into `draw`. -/
def quiet (t : List Act) : Bool := t.all fun a => !a.is_dispatch && !a.is_draw

/-- The trace is quiet and prints nothing. -/
def silent (t : List Act) : Bool :=
  t.all fun a => !a.is_dispatch && !a.is_draw && !a.is_print

/-- Whether an entry is allowed once `seen` says if `frame_configure` has
run: an entry into `draw` needs it to have run and the window to be
configured. -/
def Act.draw_ok (seen : Bool) : Act → Bool
  | Act.draw window => seen && window.configured
  | _ => true

/-- Every entry into `draw` of the trace comes with a configured window and
after an entry into `frame_configure`, where `seen` says if one came before
the trace. -/
def draws_configured : Bool → List Act → Bool
  | _, [] => true
  | seen, a :: t => a.draw_ok seen && draws_configured (seen || a.is_configure) t

/-- The number of entries into `draw` after the first entry into
`frame_close`, and 0 if there is none. -/
def draws_after_close : List Act → Nat
  | [] => 0
  | a :: t => if a.is_close then draws t else draws_after_close t

/-- After the first `libdecor_dispatch` that returns a negative value, if
there is one, the trace is silent. -/
def silent_after_failure : List Act → Bool
  | [] => true
  | a :: t => if a.is_failure then silent t else silent_after_failure t

/-- After the first entry into `draw`, if there is one, the trace is quiet. -/
def quiet_after_draw : List Act → Bool
  | [] => true
  | a :: t => if a.is_draw then quiet t else quiet_after_draw t

/-- After the first entry into `frame_close`, if there is one, the trace is
quiet once `draw` has been entered. -/
def stops_after_close : List Act → Bool
  | [] => true
  | a :: t => if a.is_close then quiet_after_draw t else stops_after_close t

/-- The trace of `main` before `setup` returns, when the display is
connected. -/
def main_head (lib : Lib) (env : Env) : List Act :=
  [Act.call Call.wl_display_connect] ++
    [Act.call (Call.wl_display_get_registry env.display),
     Act.call (Call.wl_registry_add_listener env.wl_registry),
     Act.call (Call.wl_display_roundtrip env.display)] ++
    (registry_roundtrip lib env.globals
      { Client.zero with display := env.display }).2 ++
    (setup lib env.setup (main_window (main_client lib env))).2.2.map Act.call

/-! ## Concrete inputs -/

/-- A choice of the header constants, with the names the Wayland protocol
gives its globals. -/
def lib0 : Lib :=
  { wl_compositor_interface_name := "wl_compositor",
    wl_seat_interface_name := "wl_seat",
    wl_shm_interface_name := "wl_shm",
    WL_SEAT_CAPABILITY_POINTER := 1,
    WL_SHM_FORMAT_XRGB8888 := 1,
    EGL_NO_CONTEXT := 0,
    EGL_NO_SURFACE := 0,
    EGL_OPENGL_API := 0x30A2,
    GL_COLOR_BUFFER_BIT := 0x4000 }

/-- A `setup` in which every library call succeeds. -/
def setup_ok : SetupEnv :=
  { egl_display := 2, eglInitialize := true, eglBindAPI := true,
    eglChooseConfig := true, config := 3, egl_context := 4, surface := 5,
    egl_window := 6, egl_surface := 7, memfd := 3, ftruncate := 0, mmap := true,
    pool := 8, cursor_buffer := 9, cursor_surface := 10 }

/-- A run in which the window is configured to 800x600 by the first
dispatch and closed by the second. -/
def env_ok : Env :=
  { display := 1, wl_registry := 11,
    globals := [⟨11, 1, "wl_compositor", 4, 20⟩, ⟨11, 2, "wl_seat", 1, 21⟩],
    setup := setup_ok, context := 12, frame := 13,
    roundtrip1 := [], roundtrip2 := [],
    dispatches :=
      [⟨[Event.configure 13 ⟨14, some (800, 600)⟩ true], 0⟩,
       ⟨[Event.close 13], 0⟩, ⟨[], 0⟩] }

/-- The window of the run `env_ok` when `setup` has returned. -/
def window_ok : Window :=
  (setup lib0 setup_ok (main_window (main_client lib0 env_ok))).2.1

/-- The window of the run `env_ok` when the first loop ends: decorated and
configured to 800x600. -/
def window_configured : Window :=
  (frame_configure 13 ⟨14, some (800, 600)⟩ true
    { window_ok with frame := 13 }).1

/-- The window of the run `env_ok` when `draw` is entered: configured and
closed. -/
def window_drawn : Window := (frame_close 13 window_configured).1

/-- A run like `env_ok` in which the second dispatch delivers a frame commit
and the third the close. -/
def env_commit : Env :=
  { env_ok with
    dispatches :=
      [⟨[Event.configure 13 ⟨14, some (800, 600)⟩ true], 0⟩,
       ⟨[Event.commit 13], 0⟩, ⟨[Event.close 13], 0⟩] }

/-- A run in which `eglInitialize` reports failure. -/
def env_no_egl : Env :=
  { env_ok with setup := { setup_ok with eglInitialize := false } }

/-- A run in which the first `libdecor_dispatch` returns -1. -/
def env_dispatch_fails : Env :=
  { env_ok with globals := [], dispatches := [⟨[], -1⟩, ⟨[], 0⟩] }

/-! ## Theorems -/

/-- C2: in `frame_configure` one pair (width, height) is used throughout: it
is passed to `wl_egl_window_resize`, given to `libdecor_state_new`, carried
by the state committed with `libdecor_frame_commit`, and stored in
`content_width` and `content_height`; the calls are made in the listed
order, so the resize comes before the commit. -/
theorem frame_configure_one_size (frame : Ptr) (configuration : Configuration)
    (is_floating : Bool) (window : Window) :
    ∃ width height : Int,
      (frame_configure frame configuration is_floating window).2 =
        [Call.libdecor_configuration_get_content_size configuration.addr frame,
         Call.wl_egl_window_resize window.egl_window width height 0 0,
         Call.libdecor_state_new width height,
         Call.libdecor_frame_commit frame
           { content_width := width, content_height := height }
           configuration.addr,
         Call.libdecor_state_free
           { content_width := width, content_height := height },
         Call.libdecor_frame_is_floating window.frame] ∧
      (frame_configure frame configuration is_floating window).1.content_width
        = width ∧
      (frame_configure frame configuration is_floating window).1.content_height
        = height := by
  refine ⟨_, _, rfl, ?_, ?_⟩ <;> cases is_floating <;> rfl

/-- C7: the two pointer handlers act exactly when the event names the
surface of the window.  Then `pointer_enter_handler` prints "pointer_enter"
and makes one `wl_pointer_set_cursor` call with the serial of the event and
the cursor surface of the client, and `pointer_leave_handler` prints
"pointer_leave".  For any other surface they make no call.  The window and
its client are returned unchanged in every case. -/
theorem pointer_handlers_own_surface (window : Window) (pointer : Ptr)
    (serial : Nat) (surface : Ptr) (sxW syW : Int) :
    pointer_enter_handler window pointer serial surface sxW syW =
      (window,
        if surface = window.surface then
          [Call.printf "pointer_enter\n",
           Call.wl_pointer_set_cursor pointer serial
             window.client.cursor_surface 4 4]
        else []) ∧
    pointer_leave_handler window pointer serial surface =
      (window,
        if surface = window.surface then [Call.printf "pointer_leave\n"]
        else []) := by
  unfold pointer_enter_handler pointer_leave_handler
  by_cases h : surface = window.surface <;> simp [h]

/-- C8: `frame_commit` passes `window->client->display`, the Wayland
display, to `eglSwapBuffers`, and not `window->client->egl_display` as
`draw` does.  In the runs `env_ok` and `env_commit` the display is 1 and the
EGL display is 2: the frame commit of `env_commit` calls `eglSwapBuffers`
with 1, at entry 48 of the trace, and the draw after it calls it with 2, at
entry 53. -/
theorem frame_commit_swaps_on_wl_display :
    (∀ (frame : Ptr) (window : Window),
      frame_commit frame window =
        (window,
          [Call.eglSwapBuffers window.client.display window.egl_surface])) ∧
    frame_commit 13 window_ok = (window_ok, [Call.eglSwapBuffers 1 7]) ∧
    window_ok.client.egl_display = 2 ∧
    draw lib0 window_ok =
      [Call.glClearColor (0x20 / 0xFF) (0x20 / 0xFF) (0x20 / 0xFF) 1,
       Call.glClear 0x4000, Call.eglSwapBuffers 2 7] ∧
    (main lib0 env_commit).trace[48]? =
      some (Act.call (Call.eglSwapBuffers 1 7)) ∧
    (main lib0 env_commit).trace[53]? =
      some (Act.call (Call.eglSwapBuffers 2 7)) := by
  refine ⟨fun _ _ => rfl, rfl, rfl, rfl, rfl, rfl⟩

/-- C5: after `frame_configure` the window is configured; its content size
is the size the configuration proposes when
`libdecor_configuration_get_content_size` provides one, and the stored
floating size otherwise; the floating size becomes the new content size when
the frame is floating and is unchanged when it is not.  The floating size is
600x400 when `setup` has returned, and no callback other than a configure
of a floating frame changes it. -/
theorem frame_configure_tracks_configuration (lib : Lib) (frame : Ptr)
    (configuration : Configuration) (is_floating : Bool) (window : Window) :
    (frame_configure frame configuration is_floating window).1.configured
      = true ∧
    ((frame_configure frame configuration is_floating window).1.content_width,
     (frame_configure frame configuration is_floating window).1.content_height)
      = (match configuration.content_size with
         | some size => size
         | none => (window.floating_width, window.floating_height)) ∧
    ((frame_configure frame configuration is_floating window).1.floating_width,
     (frame_configure frame configuration is_floating window).1.floating_height)
      = (if is_floating then
          ((frame_configure frame configuration is_floating window).1.content_width,
           (frame_configure frame configuration is_floating window).1.content_height)
         else (window.floating_width, window.floating_height)) ∧
    (∀ (client : Client) (env : SetupEnv),
      (setup lib env (main_window client)).2.1.floating_width = 600 ∧
      (setup lib env (main_window client)).2.1.floating_height = 400) ∧
    (∀ (e : Event), (∀ f c, e ≠ Event.configure f c true) →
      (invoke lib e window).1.floating_width = window.floating_width ∧
      (invoke lib e window).1.floating_height = window.floating_height) := by
  refine ⟨?_, ?_, ?_, ?_, ?_⟩
  · cases is_floating <;> rfl
  · cases is_floating <;> cases h : configuration.content_size <;>
      simp [frame_configure, h]
  · cases is_floating <;> simp [frame_configure]
  · intro client env
    unfold setup
    simp only []
    split_ifs <;> exact ⟨rfl, rfl⟩
  · intro e he
    cases e with
    | configure f c fl =>
      cases fl
      · exact ⟨rfl, rfl⟩
      · exact absurd rfl (he f c)
    | enter pointer serial surface sx sy =>
      simp only [invoke, pointer_enter_handler]
      split_ifs <;> exact ⟨rfl, rfl⟩
    | leave pointer serial surface =>
      simp only [invoke, pointer_leave_handler]
      split_ifs <;> exact ⟨rfl, rfl⟩
    | capabilities seat caps got =>
      simp only [invoke, seat_capabilities_handler]
      split_ifs <;> exact ⟨rfl, rfl⟩
    | _ => exact ⟨rfl, rfl⟩

/-- C10: let `wl_seat_get_pointer` return a non-null pointer.  After
`seat_capabilities_handler`, from any client state, so after any sequence of
capability events, the client holds a pointer exactly when the capabilities
have the `WL_SEAT_CAPABILITY_POINTER` bit, and `capabilities` is the value
just received.  A pointer is requested only when none was held, and one is
destroyed only when it was held.  Handling the same capabilities once more
changes nothing and makes no call. -/
theorem seat_capabilities_handler_tracks (lib : Lib) (window : Window)
    (seat : Ptr) (capabilities : Nat) (got : Ptr) (hgot : got ≠ NULL) :
    ((seat_capabilities_handler lib window seat capabilities got).1.client.pointer
        ≠ NULL ↔
      capabilities &&& lib.WL_SEAT_CAPABILITY_POINTER ≠ 0) ∧
    (seat_capabilities_handler lib window seat capabilities got).1.client.capabilities
      = capabilities ∧
    (∀ s, Call.wl_seat_get_pointer s ∈
        (seat_capabilities_handler lib window seat capabilities got).2 →
      window.client.pointer = NULL) ∧
    (∀ p, Call.wl_pointer_destroy p ∈
        (seat_capabilities_handler lib window seat capabilities got).2 →
      p = window.client.pointer ∧ window.client.pointer ≠ NULL) ∧
    (∀ seat2 got2,
      seat_capabilities_handler lib
          (seat_capabilities_handler lib window seat capabilities got).1
          seat2 capabilities got2 =
        ((seat_capabilities_handler lib window seat capabilities got).1, [])) := by
  unfold seat_capabilities_handler
  by_cases hb : capabilities &&& lib.WL_SEAT_CAPABILITY_POINTER = 0 <;>
    by_cases hp : window.client.pointer = NULL <;>
    simp [hb, hp, hgot]

/-- C10 at a concrete input: the window of `env_ok` has no pointer; the seat
announces capabilities 1 and `wl_seat_get_pointer` returns 30. -/
theorem seat_capabilities_handler_tracks_witness :
    (30 : Ptr) ≠ NULL ∧
    (seat_capabilities_handler lib0 window_ok 21 1 30).1.client.pointer = 30 ∧
    (seat_capabilities_handler lib0 window_ok 21 1 30).1.client.capabilities
      = 1 :=
  ⟨by decide, by decide,
    (seat_capabilities_handler_tracks lib0 window_ok 21 1 30 (by decide)).2.1⟩

/-! ## Facts about the entries of a trace -/

@[simp] theorem is_draw_call (c : Call) : (Act.call c).is_draw = false := rfl
@[simp] theorem is_draw_callback (e : Event) : (Act.callback e).is_draw = false := rfl
@[simp] theorem is_draw_dispatched (v : Int) : (Act.dispatched v).is_draw = false := rfl
@[simp] theorem is_draw_draw (w : Window) : (Act.draw w).is_draw = true := rfl
@[simp] theorem is_close_call (c : Call) : (Act.call c).is_close = false := rfl
@[simp] theorem is_close_callback (e : Event) : (Act.callback e).is_close = e.is_close := rfl
@[simp] theorem is_close_dispatched (v : Int) : (Act.dispatched v).is_close = false := rfl
@[simp] theorem is_close_draw (w : Window) : (Act.draw w).is_close = false := rfl
@[simp] theorem is_configure_call (c : Call) : (Act.call c).is_configure = false := rfl
@[simp] theorem is_configure_callback (e : Event) :
    (Act.callback e).is_configure = e.is_configure := rfl
@[simp] theorem is_configure_dispatched (v : Int) :
    (Act.dispatched v).is_configure = false := rfl
@[simp] theorem is_configure_draw (w : Window) : (Act.draw w).is_configure = false := rfl
@[simp] theorem is_failure_call (c : Call) : (Act.call c).is_failure = false := rfl
@[simp] theorem is_failure_callback (e : Event) : (Act.callback e).is_failure = false := rfl
@[simp] theorem is_failure_dispatched (v : Int) :
    (Act.dispatched v).is_failure = decide (v < 0) := rfl
@[simp] theorem is_failure_draw (w : Window) : (Act.draw w).is_failure = false := rfl
@[simp] theorem is_success_call (c : Call) : (Act.call c).is_success = false := rfl
@[simp] theorem is_success_callback (e : Event) : (Act.callback e).is_success = false := rfl
@[simp] theorem is_success_dispatched (v : Int) :
    (Act.dispatched v).is_success = decide (0 ≤ v) := rfl
@[simp] theorem is_success_draw (w : Window) : (Act.draw w).is_success = false := rfl
@[simp] theorem is_dispatch_callback (e : Event) : (Act.callback e).is_dispatch = false := rfl
@[simp] theorem is_dispatch_dispatched (v : Int) :
    (Act.dispatched v).is_dispatch = false := rfl
@[simp] theorem is_dispatch_draw (w : Window) : (Act.draw w).is_dispatch = false := rfl
@[simp] theorem draw_ok_call (s : Bool) (c : Call) : (Act.call c).draw_ok s = true := rfl
@[simp] theorem draw_ok_callback (s : Bool) (e : Event) :
    (Act.callback e).draw_ok s = true := rfl
@[simp] theorem draw_ok_dispatched (s : Bool) (v : Int) :
    (Act.dispatched v).draw_ok s = true := rfl
@[simp] theorem draw_ok_draw (s : Bool) (w : Window) :
    (Act.draw w).draw_ok s = (s && w.configured) := rfl

/-! ## Facts about the callbacks -/

theorem invoke_open (lib : Lib) (e : Event) (w : Window) :
    (invoke lib e w).1.open_ = (w.open_ && !e.is_close) := by
  cases e <;>
    simp [invoke, Event.is_close, frame_configure, frame_close, frame_commit,
      pointer_enter_handler, pointer_leave_handler, seat_capabilities_handler,
      registry_global_remove, pointer_motion_handler, pointer_button_handler,
      pointer_axis_handler]
  all_goals split_ifs <;> rfl

theorem invoke_configured (lib : Lib) (e : Event) (w : Window) :
    (invoke lib e w).1.configured = (w.configured || e.is_configure) := by
  cases e <;>
    simp [invoke, Event.is_configure, frame_configure, frame_close, frame_commit,
      pointer_enter_handler, pointer_leave_handler, seat_capabilities_handler,
      registry_global_remove, pointer_motion_handler, pointer_button_handler,
      pointer_axis_handler]
  all_goals split_ifs <;> rfl

theorem any_map_call (p : Act → Bool) (hcall : ∀ c, p (Act.call c) = false)
    (cs : List Call) : (cs.map Act.call).any p = false := by
  induction cs with
  | nil => rfl
  | cons c cs ih => simp [hcall, ih]

theorem callbacks_any (lib : Lib) (p : Act → Bool)
    (hcall : ∀ c, p (Act.call c) = false)
    (hcb : ∀ e, p (Act.callback e) = false) (es : List Event) (w : Window) :
    (callbacks lib es w).trace.any p = false := by
  induction es generalizing w with
  | nil => rfl
  | cons e es ih =>
    simp only [callbacks]
    split_ifs
    · simp [hcb, any_map_call p hcall]
    · simp [hcb, any_map_call p hcall, ih]

theorem callbacks_open (lib : Lib) (es : List Event) (w : Window) :
    (callbacks lib es w).window.open_ =
      (w.open_ && !(callbacks lib es w).trace.any Act.is_close) := by
  induction es generalizing w with
  | nil => simp [callbacks]
  | cons e es ih =>
    simp only [callbacks]
    split_ifs
    · simp [invoke_open, any_map_call Act.is_close (fun _ => rfl)]
    · simp [ih, invoke_open, any_map_call Act.is_close (fun _ => rfl),
        Bool.and_assoc]

theorem callbacks_configured (lib : Lib) (es : List Event) (w : Window) :
    (callbacks lib es w).window.configured =
      (w.configured || (callbacks lib es w).trace.any Act.is_configure) := by
  induction es generalizing w with
  | nil => simp [callbacks]
  | cons e es ih =>
    simp only [callbacks]
    split_ifs
    · simp [invoke_configured, any_map_call Act.is_configure (fun _ => rfl)]
    · simp [ih, invoke_configured, any_map_call Act.is_configure (fun _ => rfl),
        Bool.or_assoc]

/-! ## Facts about reading a trace -/

theorem draws_configured_cons (s : Bool) (a : Act) (t : List Act) :
    draws_configured s (a :: t) =
      (a.draw_ok s && draws_configured (s || a.is_configure) t) := rfl

theorem draws_after_close_cons (a : Act) (t : List Act) :
    draws_after_close (a :: t) =
      if a.is_close then draws t else draws_after_close t := rfl

theorem silent_after_failure_cons (a : Act) (t : List Act) :
    silent_after_failure (a :: t) =
      if a.is_failure then silent t else silent_after_failure t := rfl

theorem draws_append (a b : List Act) : draws (a ++ b) = draws a + draws b := by
  simp [draws]

theorem draws_eq_zero (t : List Act) (h : t.any Act.is_draw = false) :
    draws t = 0 := by
  induction t with
  | nil => rfl
  | cons a t ih =>
    simp only [List.any_cons, Bool.or_eq_false_iff] at h
    simp [draws, List.countP_cons, h.1]
    simpa [draws] using ih h.2

theorem draws_configured_append (s : Bool) (a b : List Act) :
    draws_configured s (a ++ b) =
      (draws_configured s a &&
        draws_configured (s || a.any Act.is_configure) b) := by
  induction a generalizing s with
  | nil => simp [draws_configured]
  | cons x a ih => simp [draws_configured, ih, Bool.and_assoc, Bool.or_assoc]

theorem draws_configured_of_no_draw (s : Bool) (t : List Act)
    (h : t.any Act.is_draw = false) : draws_configured s t = true := by
  induction t generalizing s with
  | nil => rfl
  | cons a t ih =>
    simp only [List.any_cons, Bool.or_eq_false_iff] at h
    have h1 : a.draw_ok s = true := by
      cases a <;> simp_all [Act.draw_ok, Act.is_draw]
    simp [draws_configured, h1, ih _ h.2]

theorem draws_configured_sound (s : Bool) (t pre post : List Act) (w : Window)
    (h : draws_configured s t = true) (ht : t = pre ++ Act.draw w :: post) :
    w.configured = true ∧ (s = true ∨ pre.any Act.is_configure = true) := by
  induction pre generalizing s t with
  | nil =>
    subst ht
    simp [draws_configured, Act.draw_ok] at h
    exact ⟨h.1.2, Or.inl h.1.1⟩
  | cons a pre ih =>
    subst ht
    simp only [List.cons_append, draws_configured, Bool.and_eq_true] at h
    have := ih _ _ h.2 rfl
    refine ⟨this.1, ?_⟩
    rcases this.2 with h1 | h1
    · simp only [Bool.or_eq_true] at h1
      rcases h1 with h1 | h1
      · exact Or.inl h1
      · exact Or.inr (by simp [h1])
    · exact Or.inr (by simp [h1])

theorem draws_after_close_append (a b : List Act) :
    draws_after_close (a ++ b) =
      if a.any Act.is_close then draws_after_close a + draws b
      else draws_after_close b := by
  induction a with
  | nil => simp [draws_after_close]
  | cons x a ih =>
    by_cases hx : x.is_close = true
    · simp [draws_after_close, hx, draws_append]
    · simp [draws_after_close, hx, ih]

theorem draws_after_close_of_no_draw (t : List Act)
    (h : t.any Act.is_draw = false) : draws_after_close t = 0 := by
  induction t with
  | nil => rfl
  | cons a t ih =>
    simp only [List.any_cons, Bool.or_eq_false_iff] at h
    simp only [draws_after_close]
    split_ifs
    · exact draws_eq_zero t h.2
    · exact ih h.2

theorem draws_after_close_sound (t pre post : List Act) (frame : Ptr)
    (ht : t = pre ++ Act.callback (Event.close frame) :: post) :
    draws post ≤ draws_after_close t := by
  induction pre generalizing t with
  | nil =>
    subst ht
    simp [draws_after_close, Act.is_close, Event.is_close]
  | cons a pre ih =>
    subst ht
    simp only [List.cons_append, draws_after_close, List.append_eq]
    split_ifs
    · rw [draws_append]
      simp [draws, List.countP_cons]
    · exact ih _ rfl

theorem quiet_append (a b : List Act) : quiet (a ++ b) = (quiet a && quiet b) := by
  simp [quiet]

theorem silent_append (a b : List Act) :
    silent (a ++ b) = (silent a && silent b) := by
  simp [silent]

theorem silent_after_failure_append (a b : List Act) :
    silent_after_failure (a ++ b) =
      if a.any Act.is_failure then silent_after_failure a && silent b
      else silent_after_failure b := by
  induction a with
  | nil => simp [silent_after_failure]
  | cons x a ih =>
    by_cases hx : x.is_failure = true
    · simp [silent_after_failure, hx, silent_append]
    · simp [silent_after_failure, hx, ih]

theorem silent_after_failure_of_no_failure (t : List Act)
    (h : t.any Act.is_failure = false) : silent_after_failure t = true := by
  induction t with
  | nil => rfl
  | cons a t ih =>
    simp only [List.any_cons, Bool.or_eq_false_iff] at h
    simp [silent_after_failure, h.1, ih h.2]

theorem silent_after_failure_sound (t pre post : List Act) (ret : Int)
    (hret : ret < 0) (h : silent_after_failure t = true)
    (ht : t = pre ++ Act.dispatched ret :: post) : silent post = true := by
  induction pre generalizing t with
  | nil =>
    subst ht
    simpa [silent_after_failure, Act.is_failure, hret] using h
  | cons a pre ih =>
    subst ht
    simp only [List.cons_append, silent_after_failure, List.append_eq] at h
    split_ifs at h
    · rw [silent_append] at h
      simp only [Bool.and_eq_true] at h
      have h2 := h.2
      simp only [silent, List.all_cons, Bool.and_eq_true] at h2
      simpa [silent] using h2.2
    · exact ih _ h rfl

/-! ## Facts about a dispatch and a roundtrip -/

theorem libdecor_dispatch_any (lib : Lib) (context : Ptr) (p : Act → Bool)
    (hcall : ∀ c, p (Act.call c) = false)
    (hcb : ∀ e, p (Act.callback e) = false) (d : Dispatch) (w : Window) :
    (libdecor_dispatch lib context d w).trace.any p = false := by
  simp [libdecor_dispatch, hcall, callbacks_any lib p hcall hcb]

theorem libdecor_dispatch_open (lib : Lib) (context : Ptr) (d : Dispatch)
    (w : Window) :
    (libdecor_dispatch lib context d w).window.open_ =
      (w.open_ &&
        !(libdecor_dispatch lib context d w).trace.any Act.is_close) := by
  simp [libdecor_dispatch, callbacks_open lib d.events w]

theorem libdecor_dispatch_configured (lib : Lib) (context : Ptr) (d : Dispatch)
    (w : Window) :
    (libdecor_dispatch lib context d w).window.configured =
      (w.configured ||
        (libdecor_dispatch lib context d w).trace.any Act.is_configure) := by
  simp [libdecor_dispatch, callbacks_configured lib d.events w]

theorem wl_display_roundtrip_any (lib : Lib) (display : Ptr) (p : Act → Bool)
    (hcall : ∀ c, p (Act.call c) = false)
    (hcb : ∀ e, p (Act.callback e) = false) (es : List Event) (w : Window) :
    (wl_display_roundtrip lib display es w).trace.any p = false := by
  simp [wl_display_roundtrip, hcall, callbacks_any lib p hcall hcb]

theorem wl_display_roundtrip_open (lib : Lib) (display : Ptr) (es : List Event)
    (w : Window) :
    (wl_display_roundtrip lib display es w).window.open_ =
      (w.open_ &&
        !(wl_display_roundtrip lib display es w).trace.any Act.is_close) := by
  simp [wl_display_roundtrip, callbacks_open lib es w]

theorem wl_display_roundtrip_configured (lib : Lib) (display : Ptr)
    (es : List Event) (w : Window) :
    (wl_display_roundtrip lib display es w).window.configured =
      (w.configured ||
        (wl_display_roundtrip lib display es w).trace.any Act.is_configure) := by
  simp [wl_display_roundtrip, callbacks_configured lib es w]

/-! ## Facts about the loop that waits for the first configure -/

theorem wait_configured_any (lib : Lib) (context : Ptr) (p : Act → Bool)
    (hcall : ∀ c, p (Act.call c) = false)
    (hcb : ∀ e, p (Act.callback e) = false)
    (hret : ∀ v, p (Act.dispatched v) = false) (ds : List Dispatch)
    (w : Window) : (wait_configured lib context ds w).trace.any p = false := by
  induction ds generalizing w with
  | nil => simp only [wait_configured]; split_ifs <;> rfl
  | cons d ds ih =>
    simp only [wait_configured]
    split_ifs <;>
      simp [libdecor_dispatch_any lib context p hcall hcb, hret, ih]

theorem wait_configured_open (lib : Lib) (context : Ptr) (ds : List Dispatch)
    (w : Window) :
    (wait_configured lib context ds w).window.open_ =
      (w.open_ &&
        !(wait_configured lib context ds w).trace.any Act.is_close) := by
  induction ds generalizing w with
  | nil => simp only [wait_configured]; split_ifs <;> simp
  | cons d ds ih =>
    simp only [wait_configured]
    split_ifs
    · exact libdecor_dispatch_open lib context d w
    · simp [libdecor_dispatch_open lib context d w]
    · simp [ih, libdecor_dispatch_open lib context d w,
        Bool.and_assoc]
    · simp

theorem wait_configured_configured (lib : Lib) (context : Ptr)
    (ds : List Dispatch) (w : Window) :
    (wait_configured lib context ds w).window.configured =
      (w.configured ||
        (wait_configured lib context ds w).trace.any Act.is_configure) := by
  induction ds generalizing w with
  | nil => simp only [wait_configured]; split_ifs <;> simp
  | cons d ds ih =>
    simp only [wait_configured]
    split_ifs
    · exact libdecor_dispatch_configured lib context d w
    · simp [libdecor_dispatch_configured lib context d w]
    · simp [ih, libdecor_dispatch_configured lib context d w,
        Bool.or_assoc]
    · simp

theorem wait_configured_done (lib : Lib) (context : Ptr) (ds : List Dispatch)
    (w : Window) (h : (wait_configured lib context ds w).next = Next.done) :
    (wait_configured lib context ds w).window.configured = true := by
  induction ds generalizing w with
  | nil =>
    simp only [wait_configured] at h ⊢
    split_ifs at h ⊢
    simp_all
  | cons d ds ih =>
    simp only [wait_configured] at h ⊢
    split_ifs at h ⊢
    · exact ih _ h
    · simp_all

theorem wait_configured_failure (lib : Lib) (context : Ptr)
    (ds : List Dispatch) (w : Window) :
    (wait_configured lib context ds w).trace.any Act.is_failure =
        decide ((wait_configured lib context ds w).next =
          Next.goto_out ExitCode.EXIT_FAILURE) ∧
    silent_after_failure (wait_configured lib context ds w).trace = true ∧
    ∀ ret, (wait_configured lib context ds w).next = Next.goto_out ret →
      ret = ExitCode.EXIT_FAILURE := by
  induction ds generalizing w with
  | nil => simp only [wait_configured]; split_ifs <;> simp [silent_after_failure]
  | cons d ds ih =>
    have hd := libdecor_dispatch_any lib context Act.is_failure
      (fun _ => rfl) (fun _ => rfl) d w
    simp only [wait_configured]
    split_ifs with h1 h2 h3
    · refine ⟨?_, silent_after_failure_of_no_failure _ hd, ?_⟩
      · rw [hd]; simp
      · intro ret h; cases h
    · refine ⟨?_, ?_, ?_⟩
      · rw [List.any_append, hd]; simp [h3]
      · rw [silent_after_failure_append, hd]
        simp [silent_after_failure, h3, silent]
      · intro ret h; injection h with h; exact h.symm
    · have := ih (libdecor_dispatch lib context d w).window
      refine ⟨?_, ?_, this.2.2⟩
      · rw [List.any_append, hd]; simp [h3, this.1]
      · rw [silent_after_failure_append, hd]
        simp [silent_after_failure, h3, this.2.1]
    · simp [silent_after_failure]

/-! ## Facts about the loop that draws -/

theorem countP_eq_zero_of_any (p : Act → Bool) (t : List Act)
    (h : t.any p = false) : t.countP p = 0 := by
  induction t with
  | nil => rfl
  | cons a t ih =>
    simp only [List.any_cons, Bool.or_eq_false_iff] at h
    simp [List.countP_cons, h.1, ih h.2]

theorem draw_loop_closed (lib : Lib) (context : Ptr) (ds : List Dispatch)
    (w : Window) (h : w.open_ = false) :
    draw_loop lib context ds w =
      { window := w, trace := [], next := Next.done, rest := ds } := by
  cases ds <;> simp [draw_loop, h]

theorem draw_loop_draws_configured (lib : Lib) (context : Ptr)
    (ds : List Dispatch) (w : Window) (h : w.configured = true) :
    draws_configured true (draw_loop lib context ds w).trace = true := by
  induction ds generalizing w with
  | nil => simp only [draw_loop]; split_ifs <;> rfl
  | cons d ds ih =>
    have hd := libdecor_dispatch_any lib context Act.is_draw
      (fun _ => rfl) (fun _ => rfl) d w
    have hc : (libdecor_dispatch lib context d w).window.configured = true := by
      rw [libdecor_dispatch_configured, h]; rfl
    simp only [draw_loop]
    split_ifs with h1 h2 h3
    · exact draws_configured_of_no_draw _ _ hd
    · rw [draws_configured_append, draws_configured_of_no_draw _ _ hd]
      simp [draws_configured]
    · rw [draws_configured_append, draws_configured_of_no_draw _ _ hd]
      rw [draws_configured_cons, draws_configured_cons]
      simp only [Bool.true_or, Bool.true_and, draw_ok_dispatched, draw_ok_draw, hc]
      rw [draws_configured_append,
        draws_configured_of_no_draw _ _ (any_map_call Act.is_draw (fun _ => rfl) _)]
      simpa using ih _ hc
    · rfl

theorem draw_loop_draws_after_close (lib : Lib) (context : Ptr)
    (ds : List Dispatch) (w : Window) :
    draws_after_close (draw_loop lib context ds w).trace ≤ 1 := by
  induction ds generalizing w with
  | nil => simp only [draw_loop]; split_ifs <;> simp [draws_after_close]
  | cons d ds ih =>
    have hd := libdecor_dispatch_any lib context Act.is_draw
      (fun _ => rfl) (fun _ => rfl) d w
    have hcalls := any_map_call Act.is_draw (fun _ => rfl)
      (draw lib (libdecor_dispatch lib context d w).window)
    have hcalls2 := any_map_call Act.is_close (fun _ => rfl)
      (draw lib (libdecor_dispatch lib context d w).window)
    simp only [draw_loop]
    split_ifs with h1 h2 h3
    · rw [draws_after_close_of_no_draw _ hd]; omega
    · rw [draws_after_close_of_no_draw]
      · omega
      · rw [List.any_append, hd]; rfl
    · rw [draws_after_close_append]
      split_ifs with hc
      · have ho : (libdecor_dispatch lib context d w).window.open_ = false := by
          rw [libdecor_dispatch_open, hc]; simp
        rw [draw_loop_closed lib context ds _ ho,
          draws_after_close_of_no_draw _ hd]
        simp [draws, List.countP_cons, countP_eq_zero_of_any _ _ hcalls]
      · rw [draws_after_close_cons, draws_after_close_cons]
        simp only [is_close_dispatched, is_close_draw, Bool.false_eq_true, if_false]
        rw [draws_after_close_append, hcalls2]
        simpa using ih _
    · simp [draws_after_close]

theorem draw_loop_count (lib : Lib) (context : Ptr) (ds : List Dispatch)
    (w : Window) :
    draws (draw_loop lib context ds w).trace =
      (draw_loop lib context ds w).trace.countP Act.is_success := by
  induction ds generalizing w with
  | nil => simp only [draw_loop]; split_ifs <;> rfl
  | cons d ds ih =>
    have hd := countP_eq_zero_of_any _ _
      (libdecor_dispatch_any lib context Act.is_draw
        (fun _ => rfl) (fun _ => rfl) d w)
    have hs := countP_eq_zero_of_any _ _
      (libdecor_dispatch_any lib context Act.is_success
        (fun _ => rfl) (fun _ => rfl) d w)
    have hcalls := countP_eq_zero_of_any _ _
      (any_map_call Act.is_draw (fun _ => rfl)
        (draw lib (libdecor_dispatch lib context d w).window))
    have hcalls2 := countP_eq_zero_of_any _ _
      (any_map_call Act.is_success (fun _ => rfl)
        (draw lib (libdecor_dispatch lib context d w).window))
    simp only [draw_loop]
    split_ifs with h1 h2 h3
    · simp only [draws]; rw [hd, hs]
    · simp only [draws, List.countP_append]; rw [hd, hs]
      have : ¬ (0 ≤ d.ret) := by omega
      simp [List.countP_cons, this]
    · have := ih (libdecor_dispatch lib context d w).window
      have h0 : 0 ≤ d.ret := by omega
      simp only [draws] at this ⊢
      simp only [List.countP_append, List.countP_cons, hd, hs, hcalls, hcalls2,
        this, is_draw_dispatched, is_draw_draw, is_success_dispatched,
        is_success_draw, h0]
      simp
    · rfl

theorem draw_loop_failure (lib : Lib) (context : Ptr)
    (ds : List Dispatch) (w : Window) :
    (draw_loop lib context ds w).trace.any Act.is_failure =
        decide ((draw_loop lib context ds w).next =
          Next.goto_out ExitCode.EXIT_FAILURE) ∧
    silent_after_failure (draw_loop lib context ds w).trace = true ∧
    ∀ ret, (draw_loop lib context ds w).next = Next.goto_out ret →
      ret = ExitCode.EXIT_FAILURE := by
  induction ds generalizing w with
  | nil => simp only [draw_loop]; split_ifs <;> simp [silent_after_failure]
  | cons d ds ih =>
    have hd := libdecor_dispatch_any lib context Act.is_failure
      (fun _ => rfl) (fun _ => rfl) d w
    have hcalls := any_map_call Act.is_failure (fun _ => rfl)
      (draw lib (libdecor_dispatch lib context d w).window)
    simp only [draw_loop]
    split_ifs with h1 h2 h3
    · refine ⟨?_, silent_after_failure_of_no_failure _ hd, ?_⟩
      · rw [hd]; simp
      · intro ret h; cases h
    · refine ⟨?_, ?_, ?_⟩
      · rw [List.any_append, hd]; simp [h3]
      · rw [silent_after_failure_append, hd]
        simp [silent_after_failure, h3, silent]
      · intro ret h; injection h with h; exact h.symm
    · have := ih (libdecor_dispatch lib context d w).window
      refine ⟨?_, ?_, this.2.2⟩
      · rw [List.any_append, hd]
        simp only [List.any_cons, List.any_append, hcalls, is_failure_dispatched,
          is_failure_draw, h3, this.1]
        simp
      · rw [silent_after_failure_append, hd]
        rw [silent_after_failure_cons, silent_after_failure_cons]
        simp only [is_failure_dispatched, is_failure_draw, h3, decide_False,
          Bool.false_eq_true, if_false]
        rw [silent_after_failure_append, hcalls]
        simpa using this.2.1
    · simp [silent_after_failure]

/-! ## Facts about the code after `out` and about leaving a loop -/

theorem out_any (lib : Lib) (context : Ptr) (w : Window) (ret : ExitCode)
    (p : Act → Bool) (hcall : ∀ c, p (Act.call c) = false) :
    (out lib context w ret).trace.any p = false := by
  simp only [out, List.any_append, any_map_call p hcall]
  split_ifs <;> simp [hcall]

theorem out_quiet (lib : Lib) (context : Ptr) (w : Window) (ret : ExitCode) :
    quiet (out lib context w ret).trace = true := by
  simp only [out, quiet_append, cleanup, List.map_append]
  split_ifs <;> rfl

theorem out_silent (lib : Lib) (context : Ptr) (w : Window) (ret : ExitCode) :
    silent (out lib context w ret).trace = true := by
  simp only [out, silent_append, cleanup, List.map_append]
  split_ifs <;> rfl

theorem leave_any (lib : Lib) (context : Ptr) (l : Loop) (c : Run)
    (p : Act → Bool) (hcall : ∀ c, p (Act.call c) = false)
    (hc : c.trace.any p = false) :
    (leave lib context l c).trace.any p = false := by
  unfold leave
  split
  · exact hc
  · exact out_any lib context _ _ p hcall
  · rfl
  · rfl

theorem run_after_trace (t : List Act) (r : Run) :
    (Run.after t r).trace = t ++ r.trace := rfl

theorem run_after_outcome (t : List Act) (r : Run) :
    (Run.after t r).outcome = r.outcome := rfl

/-! ## Facts about the two loops together -/

theorem main_loops_draws_configured (lib : Lib) (context : Ptr) (ret : ExitCode)
    (ds : List Dispatch) (w : Window) (s : Bool)
    (hs : w.configured = true → s = true) :
    draws_configured s (main_loops lib context ret ds w).trace = true := by
  have h1 := wait_configured_any lib context Act.is_draw (fun _ => rfl)
    (fun _ => rfl) (fun _ => rfl) ds w
  simp only [main_loops, run_after_trace]
  rw [draws_configured_append, draws_configured_of_no_draw _ _ h1, Bool.true_and]
  cases hn : (wait_configured lib context ds w).next with
  | done =>
    have hc := wait_configured_done lib context ds w hn
    rw [wait_configured_configured] at hc
    have hs2 : (s || (wait_configured lib context ds w).trace.any Act.is_configure)
        = true := by
      cases hw : w.configured
      · rw [hw, Bool.false_or] at hc; rw [hc, Bool.or_true]
      · simp [hs hw]
    simp only [leave, hn, run_after_trace]
    rw [hs2, draws_configured_append, draw_loop_draws_configured lib context _ _
      (wait_configured_done lib context ds w hn), Bool.true_and]
    exact draws_configured_of_no_draw _ _
      (leave_any lib context _ _ Act.is_draw (fun _ => rfl)
        (out_any lib context _ _ Act.is_draw (fun _ => rfl)))
  | goto_out r =>
    simp only [leave, hn]
    exact draws_configured_of_no_draw _ _
      (out_any lib context _ _ Act.is_draw (fun _ => rfl))
  | exited => simp only [leave, hn]; rfl
  | pending => simp only [leave, hn]; rfl

theorem main_loops_draws_closed (lib : Lib) (context : Ptr) (ret : ExitCode)
    (ds : List Dispatch) (w : Window) (h : w.open_ = false) :
    draws (main_loops lib context ret ds w).trace = 0 := by
  have h1 := wait_configured_any lib context Act.is_draw (fun _ => rfl)
    (fun _ => rfl) (fun _ => rfl) ds w
  have ho : (wait_configured lib context ds w).window.open_ = false := by
    rw [wait_configured_open, h]; rfl
  apply draws_eq_zero
  simp only [main_loops, run_after_trace, List.any_append, h1, Bool.false_or]
  apply leave_any lib context _ _ Act.is_draw (fun _ => rfl)
  rw [draw_loop_closed lib context _ _ ho]
  simp only [run_after_trace, List.nil_append]
  exact leave_any lib context _ _ Act.is_draw (fun _ => rfl)
    (out_any lib context _ _ Act.is_draw (fun _ => rfl))

theorem main_loops_draws_after_close (lib : Lib) (context : Ptr)
    (ret : ExitCode) (ds : List Dispatch) (w : Window) :
    draws_after_close (main_loops lib context ret ds w).trace ≤ 1 := by
  have h1 := wait_configured_any lib context Act.is_draw (fun _ => rfl)
    (fun _ => rfl) (fun _ => rfl) ds w
  have hY : ∀ l : Loop, (leave lib context l
      (out lib context l.window ret)).trace.any Act.is_draw = false :=
    fun l => leave_any lib context _ _ Act.is_draw (fun _ => rfl)
      (out_any lib context _ _ Act.is_draw (fun _ => rfl))
  simp only [main_loops, run_after_trace]
  rw [draws_after_close_append]
  split_ifs with hc
  · have ho : (wait_configured lib context ds w).window.open_ = false := by
      rw [wait_configured_open, hc]; simp
    rw [draws_after_close_of_no_draw _ h1, Nat.zero_add]
    have : draws (leave lib context (wait_configured lib context ds w)
        (Run.after (draw_loop lib context (wait_configured lib context ds w).rest
            (wait_configured lib context ds w).window).trace
          (leave lib context
            (draw_loop lib context (wait_configured lib context ds w).rest
              (wait_configured lib context ds w).window)
            (out lib context
              (draw_loop lib context (wait_configured lib context ds w).rest
                (wait_configured lib context ds w).window).window ret)))).trace
        = 0 := by
      apply draws_eq_zero
      apply leave_any lib context _ _ Act.is_draw (fun _ => rfl)
      rw [draw_loop_closed lib context _ _ ho]
      simp only [run_after_trace, List.nil_append]
      exact hY _
    omega
  · cases hn : (wait_configured lib context ds w).next with
    | done =>
      simp only [leave, hn, run_after_trace]
      rw [draws_after_close_append]
      split_ifs
      · have := draw_loop_draws_after_close lib context
          (wait_configured lib context ds w).rest
          (wait_configured lib context ds w).window
        have h0 := draws_eq_zero _ (hY (draw_loop lib context
          (wait_configured lib context ds w).rest
          (wait_configured lib context ds w).window))
        simp only [leave] at h0
        omega
      · have h0 := draws_after_close_of_no_draw _ (hY (draw_loop lib context
          (wait_configured lib context ds w).rest
          (wait_configured lib context ds w).window))
        simp only [leave] at h0
        omega
    | goto_out r =>
      simp only [leave, hn]
      rw [draws_after_close_of_no_draw _
        (out_any lib context _ _ Act.is_draw (fun _ => rfl))]
      omega
    | exited => simp only [leave, hn, draws_after_close]; omega
    | pending => simp only [leave, hn, draws_after_close]; omega

theorem main_loops_failure (lib : Lib) (context : Ptr) (ret : ExitCode)
    (ds : List Dispatch) (w : Window) :
    silent_after_failure (main_loops lib context ret ds w).trace = true ∧
    ((main_loops lib context ret ds w).trace.any Act.is_failure = true →
      (main_loops lib context ret ds w).outcome =
        Outcome.returned ExitCode.EXIT_FAILURE) := by
  have h1 := wait_configured_failure lib context ds w
  have h2 := draw_loop_failure lib context
    (wait_configured lib context ds w).rest
    (wait_configured lib context ds w).window
  have ho : ∀ w r, (out lib context w r).trace.any Act.is_failure = false :=
    fun w r => out_any lib context w r Act.is_failure (fun _ => rfl)
  simp only [main_loops, run_after_trace, run_after_outcome]
  rw [silent_after_failure_append, List.any_append]
  cases hn : (wait_configured lib context ds w).next with
  | done =>
    rw [hn] at h1
    simp only [leave, hn, run_after_trace, run_after_outcome]
    rw [h1.1, silent_after_failure_append, List.any_append]
    cases hm : (draw_loop lib context (wait_configured lib context ds w).rest
        (wait_configured lib context ds w).window).next with
    | done =>
      rw [hm] at h2
      simp only [hm]
      rw [h2.1, ho]
      simp [silent_after_failure_of_no_failure _ (ho _ _)]
    | goto_out r =>
      have hr := h2.2.2 r hm
      subst hr
      simp only [hm]
      refine ⟨?_, fun _ => rfl⟩
      simp [h2.2.1, out_silent, silent_after_failure_of_no_failure _ (ho _ _)]
    | exited =>
      rw [hm] at h2
      simp only [hm]
      rw [h2.1]
      simp [silent_after_failure]
    | pending =>
      rw [hm] at h2
      simp only [hm]
      rw [h2.1]
      simp [silent_after_failure]
  | goto_out r =>
    have hr := h1.2.2 r hn
    subst hr
    simp only [leave, hn]
    refine ⟨?_, fun _ => rfl⟩
    simp [h1.2.1, out_silent, silent_after_failure_of_no_failure _ (ho _ _)]
  | exited =>
    rw [hn] at h1
    simp only [leave, hn]
    rw [h1.1]
    simp [silent_after_failure]
  | pending =>
    rw [hn] at h1
    simp only [leave, hn]
    rw [h1.1]
    simp [silent_after_failure]

/-! ## Facts about a first part of the trace that has no draw -/

theorem draws_configured_head (s : Bool) (P X : List Act)
    (h : P.any Act.is_draw = false) :
    draws_configured s (P ++ X) =
      draws_configured (s || P.any Act.is_configure) X := by
  rw [draws_configured_append, draws_configured_of_no_draw _ _ h, Bool.true_and]

theorem draws_after_close_head (P X : List Act)
    (h : P.any Act.is_draw = false) :
    draws_after_close (P ++ X) =
      if P.any Act.is_close then draws X else draws_after_close X := by
  rw [draws_after_close_append, draws_after_close_of_no_draw _ h, Nat.zero_add]

theorem silent_after_failure_head (P X : List Act)
    (h : P.any Act.is_failure = false) :
    silent_after_failure (P ++ X) = silent_after_failure X := by
  rw [silent_after_failure_append, h]; rfl

/-! ## Facts about `main` after `setup` -/

theorem main_decorate_draws_configured (lib : Lib) (env : Env) (ret : ExitCode)
    (w : Window) (s : Bool) (hs : w.configured = true → s = true) :
    draws_configured s (main_decorate lib env ret w).trace = true := by
  have hd1 := fun d => wl_display_roundtrip_any lib d Act.is_draw (fun _ => rfl)
    (fun _ => rfl) env.roundtrip1 { w with frame := env.frame }
  have hd2 := fun d w => wl_display_roundtrip_any lib d Act.is_draw
    (fun _ => rfl) (fun _ => rfl) env.roundtrip2 w
  simp only [main_decorate]
  split_ifs with h1 h2
  · apply draws_configured_of_no_draw
    simp [hd1]
  · apply draws_configured_of_no_draw
    simp [hd1, hd2]
  · rw [run_after_trace, draws_configured_head _ _ _ (by simp [hd1, hd2])]
    apply main_loops_draws_configured
    intro hc
    rw [wl_display_roundtrip_configured, wl_display_roundtrip_configured] at hc
    simp only [List.any_append, Bool.or_eq_true] at hc ⊢
    rcases hc with (hc | hc) | hc
    · exact Or.inl (hs hc)
    · exact Or.inr (Or.inl (Or.inr hc))
    · exact Or.inr (Or.inr hc)

theorem main_decorate_draws_after_close (lib : Lib) (env : Env)
    (ret : ExitCode) (w : Window) :
    draws_after_close (main_decorate lib env ret w).trace ≤ 1 := by
  have hd1 := fun d => wl_display_roundtrip_any lib d Act.is_draw (fun _ => rfl)
    (fun _ => rfl) env.roundtrip1 { w with frame := env.frame }
  have hd2 := fun d w => wl_display_roundtrip_any lib d Act.is_draw
    (fun _ => rfl) (fun _ => rfl) env.roundtrip2 w
  simp only [main_decorate]
  split_ifs with h1 h2
  · rw [draws_after_close_of_no_draw _ (by simp [hd1])]; omega
  · rw [draws_after_close_of_no_draw _ (by simp [hd1, hd2])]; omega
  · rw [run_after_trace, draws_after_close_head _ _ (by simp [hd1, hd2])]
    split_ifs with hc
    · rw [main_loops_draws_closed]
      · omega
      · rw [wl_display_roundtrip_open, wl_display_roundtrip_open]
        simp only [List.any_append, Bool.or_eq_true] at hc
        rcases hc with (hc | hc) | hc
        · simp at hc
        · simp [hc]
        · simp [hc]
    · exact main_loops_draws_after_close lib _ _ _ _

theorem main_decorate_failure (lib : Lib) (env : Env) (ret : ExitCode)
    (w : Window) :
    silent_after_failure (main_decorate lib env ret w).trace = true ∧
    ((main_decorate lib env ret w).trace.any Act.is_failure = true →
      (main_decorate lib env ret w).outcome =
        Outcome.returned ExitCode.EXIT_FAILURE) := by
  have hd1 := fun d => wl_display_roundtrip_any lib d Act.is_failure
    (fun _ => rfl) (fun _ => rfl) env.roundtrip1 { w with frame := env.frame }
  have hd2 := fun d w => wl_display_roundtrip_any lib d Act.is_failure
    (fun _ => rfl) (fun _ => rfl) env.roundtrip2 w
  simp only [main_decorate]
  split_ifs with h1 h2
  · have h0 : (([Act.call (Call.wl_seat_add_listener w.client.seat),
          Act.call (Call.libdecor_new w.client.display),
          Act.call (Call.libdecor_decorate env.context w.surface)] ++
        [Act.call (Call.libdecor_frame_set_app_id env.frame "bugrepro"),
          Act.call (Call.libdecor_frame_set_title env.frame "bugrepro"),
          Act.call (Call.libdecor_frame_map env.frame)] ++
        (wl_display_roundtrip lib w.client.display env.roundtrip1
          { w with frame := env.frame }).trace).any Act.is_failure) = false := by
      simp [hd1]
    exact ⟨silent_after_failure_of_no_failure _ h0, fun h => (Bool.false_ne_true (h0.symm.trans h)).elim⟩
  · have h0 : (([Act.call (Call.wl_seat_add_listener w.client.seat),
          Act.call (Call.libdecor_new w.client.display),
          Act.call (Call.libdecor_decorate env.context w.surface)] ++
        [Act.call (Call.libdecor_frame_set_app_id env.frame "bugrepro"),
          Act.call (Call.libdecor_frame_set_title env.frame "bugrepro"),
          Act.call (Call.libdecor_frame_map env.frame)] ++
        (wl_display_roundtrip lib w.client.display env.roundtrip1
          { w with frame := env.frame }).trace ++
        (wl_display_roundtrip lib
          (wl_display_roundtrip lib w.client.display env.roundtrip1
            { w with frame := env.frame }).window.client.display
          env.roundtrip2
          (wl_display_roundtrip lib w.client.display env.roundtrip1
            { w with frame := env.frame }).window).trace).any Act.is_failure)
        = false := by
      simp [hd1, hd2]
    exact ⟨silent_after_failure_of_no_failure _ h0, fun h => (Bool.false_ne_true (h0.symm.trans h)).elim⟩
  · rw [run_after_trace, run_after_outcome,
      silent_after_failure_head _ _ (by simp [hd1, hd2])]
    refine ⟨(main_loops_failure lib _ _ _ _).1, fun h => ?_⟩
    apply (main_loops_failure lib _ _ _ _).2
    rw [List.any_append] at h
    simpa [hd1, hd2] using h

/-! ## Facts about `main` up to `setup` -/

theorem registry_roundtrip_any (lib : Lib) (p : Act → Bool)
    (hcall : ∀ c, p (Act.call c) = false)
    (hcb : ∀ g, p (Act.callback (Event.global g)) = false) (gs : List Global)
    (c : Client) :
    (registry_roundtrip lib gs c).2.any p = false := by
  induction gs generalizing c with
  | nil => rfl
  | cons g gs ih => simp [registry_roundtrip, hcb, any_map_call p hcall, ih]

theorem registry_roundtrip_quiet (lib : Lib) (gs : List Global) (c : Client) :
    quiet (registry_roundtrip lib gs c).2 = true := by
  induction gs generalizing c with
  | nil => rfl
  | cons g gs ih =>
    have h : quiet ((registry_global lib c g).2.map Act.call) = true := by
      unfold registry_global
      split_ifs <;> rfl
    simp only [registry_roundtrip]
    rw [← List.singleton_append, quiet_append, quiet_append, h, ih]
    rfl

theorem setup_configured (lib : Lib) (e : SetupEnv) (w : Window) :
    (setup lib e w).2.1.configured = w.configured ∧
    (setup lib e w).2.1.open_ = w.open_ := by
  unfold setup
  simp only []
  split_ifs <;> exact ⟨rfl, rfl⟩

theorem create_cursor_buffer_quiet (lib : Lib) (e : SetupEnv) (c : Client) :
    quiet ((create_cursor_buffer lib e c).2.2.map Act.call) = true := by
  unfold create_cursor_buffer
  simp only []
  split_ifs <;> rfl

theorem create_cursor_buffer_prints (lib : Lib) (e : SetupEnv) (c : Client)
    (h : (create_cursor_buffer lib e c).1 = false) :
    ((create_cursor_buffer lib e c).2.2.map Act.call).any Act.is_print
      = true := by
  unfold create_cursor_buffer at h ⊢
  simp only [] at h ⊢
  split_ifs at h ⊢
  · rfl
  · rfl
  · rfl

theorem setup_quiet (lib : Lib) (e : SetupEnv) (w : Window) :
    quiet ((setup lib e w).2.2.map Act.call) = true := by
  unfold setup
  simp only []
  split_ifs <;>
    first
    | rfl
    | (simp only [List.map_append, quiet_append, create_cursor_buffer_quiet]
       rfl)

theorem setup_prints (lib : Lib) (e : SetupEnv) (w : Window)
    (h : (setup lib e w).1 = false) :
    ((setup lib e w).2.2.map Act.call).any Act.is_print = true := by
  unfold setup at h ⊢
  simp only [] at h ⊢
  split_ifs at h ⊢ with h1 h2 h3 h4 h5
  · rfl
  · rfl
  · rfl
  · rfl
  · rw [List.map_append, List.any_append,
      create_cursor_buffer_prints lib e _ (by simpa using h5)]
    exact Bool.or_true _

theorem main_null (lib : Lib) (env : Env) (h : env.display = NULL) :
    main lib env =
      { outcome := Outcome.returned ExitCode.EXIT_FAILURE, window := none,
        trace :=
          [Act.call Call.wl_display_connect,
           Act.call (Call.fprintf_stderr "no wayland connection\n"),
           Act.call Call.free_client] } := by
  unfold main
  simp only [h, if_true]
  rfl

theorem main_eq (lib : Lib) (env : Env) (h : env.display ≠ NULL) :
    main lib env =
      if (setup lib env.setup (main_window (main_client lib env))).1 = false then
        Run.after (main_head lib env)
          (out lib NULL
            (setup lib env.setup (main_window (main_client lib env))).2.1
            ExitCode.EXIT_SUCCESS)
      else
        Run.after (main_head lib env)
          (main_decorate lib env ExitCode.EXIT_SUCCESS
            (setup lib env.setup (main_window (main_client lib env))).2.1) := by
  unfold main
  simp only [h, if_false, main_head]
  cases (setup lib env.setup (main_window (main_client lib env))).1 <;> rfl

theorem main_head_any (lib : Lib) (env : Env) (p : Act → Bool)
    (hcall : ∀ c, p (Act.call c) = false)
    (hcb : ∀ g, p (Act.callback (Event.global g)) = false) :
    (main_head lib env).any p = false := by
  simp [main_head, hcall, registry_roundtrip_any lib p hcall hcb,
    any_map_call p hcall]

theorem main_head_quiet (lib : Lib) (env : Env) :
    quiet (main_head lib env) = true := by
  simp only [main_head, quiet_append, registry_roundtrip_quiet, setup_quiet]
  rfl

theorem main_draws_configured (lib : Lib) (env : Env) :
    draws_configured false (main lib env).trace = true := by
  by_cases h : env.display = NULL
  · rw [main_null lib env h]
    rfl
  · rw [main_eq lib env h]
    have hp := main_head_any lib env Act.is_draw (fun _ => rfl) (fun _ => rfl)
    split_ifs
    · apply draws_configured_of_no_draw
      rw [run_after_trace, List.any_append, hp,
        out_any lib _ _ _ Act.is_draw (fun _ => rfl)]
      rfl
    · rw [run_after_trace, draws_configured_head _ _ _ hp]
      apply main_decorate_draws_configured
      intro hc
      rw [(setup_configured lib _ _).1] at hc
      cases hc

theorem main_draws_after_close (lib : Lib) (env : Env) :
    draws_after_close (main lib env).trace ≤ 1 := by
  by_cases h : env.display = NULL
  · rw [main_null lib env h]
    simp [draws_after_close]
  · rw [main_eq lib env h]
    have hp := main_head_any lib env Act.is_draw (fun _ => rfl) (fun _ => rfl)
    have hq := main_head_any lib env Act.is_close (fun _ => rfl)
      (fun _ => rfl)
    split_ifs
    · rw [draws_after_close_of_no_draw]
      · omega
      · rw [run_after_trace, List.any_append, hp,
          out_any lib _ _ _ Act.is_draw (fun _ => rfl)]
        rfl
    · rw [run_after_trace, draws_after_close_head _ _ hp, hq]
      exact main_decorate_draws_after_close lib env _ _

theorem main_failure (lib : Lib) (env : Env) :
    silent_after_failure (main lib env).trace = true ∧
    ((main lib env).trace.any Act.is_failure = true →
      (main lib env).outcome = Outcome.returned ExitCode.EXIT_FAILURE) := by
  by_cases h : env.display = NULL
  · rw [main_null lib env h]
    exact ⟨rfl, fun _ => rfl⟩
  · rw [main_eq lib env h]
    have hp := main_head_any lib env Act.is_failure (fun _ => rfl)
      (fun _ => rfl)
    split_ifs
    · have h0 : (Run.after (main_head lib env)
          (out lib NULL
            (setup lib env.setup (main_window (main_client lib env))).2.1
            ExitCode.EXIT_SUCCESS)).trace.any Act.is_failure = false := by
        rw [run_after_trace, List.any_append, hp,
          out_any lib _ _ _ Act.is_failure (fun _ => rfl)]
        rfl
      exact ⟨silent_after_failure_of_no_failure _ h0,
        fun h => (Bool.false_ne_true (h0.symm.trans h)).elim⟩
    · rw [run_after_trace, run_after_outcome,
        silent_after_failure_head _ _ hp, List.any_append, hp]
      exact main_decorate_failure lib env _ _

/-! ## Facts about what follows a close -/

theorem quiet_after_draw_cons (a : Act) (t : List Act) :
    quiet_after_draw (a :: t) =
      if a.is_draw then quiet t else quiet_after_draw t := rfl

theorem stops_after_close_cons (a : Act) (t : List Act) :
    stops_after_close (a :: t) =
      if a.is_close then quiet_after_draw t else stops_after_close t := rfl

theorem quiet_after_draw_of_no_draw (t : List Act)
    (h : t.any Act.is_draw = false) : quiet_after_draw t = true := by
  induction t with
  | nil => rfl
  | cons a t ih =>
    simp only [List.any_cons, Bool.or_eq_false_iff] at h
    rw [quiet_after_draw_cons, h.1]
    exact ih h.2

theorem stops_after_close_of_no_draw (t : List Act)
    (h : t.any Act.is_draw = false) : stops_after_close t = true := by
  induction t with
  | nil => rfl
  | cons a t ih =>
    simp only [List.any_cons, Bool.or_eq_false_iff] at h
    rw [stops_after_close_cons]
    split_ifs
    · exact quiet_after_draw_of_no_draw t h.2
    · exact ih h.2

theorem quiet_after_draw_append (a b : List Act) :
    quiet_after_draw (a ++ b) =
      if a.any Act.is_draw then quiet_after_draw a && quiet b
      else quiet_after_draw b := by
  induction a with
  | nil => simp
  | cons x a ih =>
    by_cases hx : x.is_draw = true
    · simp [quiet_after_draw, hx, quiet_append]
    · simp [quiet_after_draw, hx, ih]

theorem draws_pos_iff (t : List Act) :
    0 < draws t ↔ t.any Act.is_draw = true := by
  simp [draws, List.countP_pos_iff]

theorem stops_after_close_append (a b : List Act) :
    stops_after_close (a ++ b) =
      if a.any Act.is_close then
        if 0 < draws_after_close a then stops_after_close a && quiet b
        else quiet_after_draw b
      else stops_after_close b := by
  induction a with
  | nil => simp
  | cons x a ih =>
    by_cases hx : x.is_close = true
    · simp only [List.cons_append, stops_after_close_cons, draws_after_close_cons,
        hx, if_true, List.any_cons, Bool.true_or, quiet_after_draw_append]
      by_cases hd : a.any Act.is_draw = true
      · simp [hd, (draws_pos_iff a).2 hd]
      · have h0 : ¬ 0 < draws a := fun h => hd ((draws_pos_iff a).1 h)
        simp [hd, h0]
    · simp only [List.cons_append, stops_after_close_cons, draws_after_close_cons,
        hx, if_false, List.any_cons, ih]
      simp [hx]

theorem quiet_after_draw_of_quiet (t : List Act) (h : quiet t = true) :
    quiet_after_draw t = true := by
  apply quiet_after_draw_of_no_draw
  induction t with
  | nil => rfl
  | cons a t ih =>
    simp only [quiet, List.all_cons, Bool.and_eq_true, Bool.not_eq_true'] at h
    simp only [List.any_cons, h.1.2, Bool.false_or]
    exact ih (by simpa [quiet] using h.2)

theorem quiet_after_draw_suffix (a b : List Act)
    (h : quiet_after_draw (a ++ b) = true) : quiet_after_draw b = true := by
  rw [quiet_after_draw_append] at h
  split_ifs at h
  · simp only [Bool.and_eq_true] at h
    exact quiet_after_draw_of_quiet b h.2
  · exact h

theorem quiet_after_draw_sound (t a b : List Act) (w : Window)
    (h : quiet_after_draw t = true) (ht : t = a ++ Act.draw w :: b) :
    quiet b = true := by
  subst ht
  have := quiet_after_draw_suffix a _ h
  simpa [quiet_after_draw] using this

theorem stops_after_close_sound (t pre post : List Act) (frame : Ptr)
    (h : stops_after_close t = true)
    (ht : t = pre ++ Act.callback (Event.close frame) :: post) :
    quiet_after_draw post = true := by
  induction pre generalizing t with
  | nil =>
    subst ht
    simpa [stops_after_close, Event.is_close] using h
  | cons a pre ih =>
    subst ht
    rw [List.cons_append, stops_after_close_cons] at h
    split_ifs at h
    · have := quiet_after_draw_suffix pre _ h
      rw [quiet_after_draw_cons] at this
      simpa using this
    · exact ih _ h rfl

theorem no_draw_of_draws_eq_zero (t : List Act) (h : draws t = 0) :
    t.any Act.is_draw = false := by
  cases hd : t.any Act.is_draw
  · rfl
  · have := (draws_pos_iff t).2 hd
    omega

theorem draw_quiet (lib : Lib) (w : Window) :
    quiet ((draw lib w).map Act.call) = true := rfl

theorem leave_quiet (lib : Lib) (context : Ptr) (l : Loop) (c : Run)
    (hc : quiet c.trace = true) :
    quiet (leave lib context l c).trace = true := by
  unfold leave
  split
  · exact hc
  · exact out_quiet lib context _ _
  · rfl
  · rfl

theorem draw_loop_stops_after_close (lib : Lib) (context : Ptr)
    (ds : List Dispatch) (w : Window) :
    stops_after_close (draw_loop lib context ds w).trace = true := by
  induction ds generalizing w with
  | nil => simp only [draw_loop]; split_ifs <;> rfl
  | cons d ds ih =>
    have hd := libdecor_dispatch_any lib context Act.is_draw
      (fun _ => rfl) (fun _ => rfl) d w
    have hcalls := any_map_call Act.is_close (fun _ => rfl)
      (draw lib (libdecor_dispatch lib context d w).window)
    simp only [draw_loop]
    split_ifs with h1 h2 h3
    · exact stops_after_close_of_no_draw _ hd
    · apply stops_after_close_of_no_draw
      rw [List.any_append, hd]; rfl
    · rw [stops_after_close_append, draws_after_close_of_no_draw _ hd]
      split_ifs with hc h0
      · omega
      · have ho : (libdecor_dispatch lib context d w).window.open_ = false := by
          rw [libdecor_dispatch_open, hc]; simp
        rw [draw_loop_closed lib context ds _ ho, quiet_after_draw_cons,
          quiet_after_draw_cons]
        simp only [is_draw_dispatched, is_draw_draw, Bool.false_eq_true, if_false,
          if_true, List.append_nil]
        exact draw_quiet lib _
      · rw [stops_after_close_cons, stops_after_close_cons]
        simp only [is_close_dispatched, is_close_draw, Bool.false_eq_true, if_false]
        rw [stops_after_close_append, hcalls]
        simpa using ih _
    · rfl

theorem main_loops_no_draw_closed (lib : Lib) (context : Ptr) (ret : ExitCode)
    (ds : List Dispatch) (w : Window) (h : w.open_ = false) :
    (main_loops lib context ret ds w).trace.any Act.is_draw = false :=
  no_draw_of_draws_eq_zero _ (main_loops_draws_closed lib context ret ds w h)

theorem main_loops_stops_after_close (lib : Lib) (context : Ptr)
    (ret : ExitCode) (ds : List Dispatch) (w : Window) :
    stops_after_close (main_loops lib context ret ds w).trace = true := by
  have h1 := wait_configured_any lib context Act.is_draw (fun _ => rfl)
    (fun _ => rfl) (fun _ => rfl) ds w
  have hY : ∀ l : Loop, (leave lib context l
      (out lib context l.window ret)).trace.any Act.is_draw = false :=
    fun l => leave_any lib context _ _ Act.is_draw (fun _ => rfl)
      (out_any lib context _ _ Act.is_draw (fun _ => rfl))
  have hQ : ∀ l : Loop, quiet (leave lib context l
      (out lib context l.window ret)).trace = true :=
    fun l => leave_quiet lib context _ _ (out_quiet lib context _ _)
  by_cases hc : (wait_configured lib context ds w).trace.any Act.is_close = true
  · have ho : (wait_configured lib context ds w).window.open_ = false := by
      rw [wait_configured_open, hc]; simp
    have hX := main_loops_no_draw_closed lib context ret
      (wait_configured lib context ds w).rest
      (wait_configured lib context ds w).window ho
    apply stops_after_close_of_no_draw
    simp only [main_loops, run_after_trace, List.any_append, h1, Bool.false_or]
    apply leave_any lib context _ _ Act.is_draw (fun _ => rfl)
    rw [draw_loop_closed lib context _ _ ho]
    simp only [run_after_trace, List.nil_append]
    exact hY _
  · simp only [main_loops, run_after_trace]
    rw [stops_after_close_append, if_neg hc]
    cases hn : (wait_configured lib context ds w).next with
    | done =>
      simp only [leave, hn, run_after_trace]
      rw [stops_after_close_append]
      split_ifs
      · have h1 := draw_loop_stops_after_close lib context
          (wait_configured lib context ds w).rest
          (wait_configured lib context ds w).window
        have h2 := hQ (draw_loop lib context
          (wait_configured lib context ds w).rest
          (wait_configured lib context ds w).window)
        simp only [leave] at h2
        rw [h1, h2]; rfl
      · have h2 := quiet_after_draw_of_no_draw _ (hY (draw_loop lib context
          (wait_configured lib context ds w).rest
          (wait_configured lib context ds w).window))
        simp only [leave] at h2
        exact h2
      · have h2 := stops_after_close_of_no_draw _ (hY (draw_loop lib context
          (wait_configured lib context ds w).rest
          (wait_configured lib context ds w).window))
        simp only [leave] at h2
        exact h2
    | goto_out r =>
      simp only [leave, hn]
      exact stops_after_close_of_no_draw _
        (out_any lib context _ _ Act.is_draw (fun _ => rfl))
    | exited => simp only [leave, hn]; rfl
    | pending => simp only [leave, hn]; rfl

theorem stops_after_close_head (P X : List Act)
    (h : P.any Act.is_draw = false) :
    stops_after_close (P ++ X) =
      if P.any Act.is_close then quiet_after_draw X
      else stops_after_close X := by
  rw [stops_after_close_append, draws_after_close_of_no_draw _ h]
  simp

theorem main_decorate_stops_after_close (lib : Lib) (env : Env)
    (ret : ExitCode) (w : Window) :
    stops_after_close (main_decorate lib env ret w).trace = true := by
  have hd1 := fun d => wl_display_roundtrip_any lib d Act.is_draw (fun _ => rfl)
    (fun _ => rfl) env.roundtrip1 { w with frame := env.frame }
  have hd2 := fun d w => wl_display_roundtrip_any lib d Act.is_draw
    (fun _ => rfl) (fun _ => rfl) env.roundtrip2 w
  simp only [main_decorate]
  split_ifs with h1 h2
  · exact stops_after_close_of_no_draw _ (by simp [hd1])
  · exact stops_after_close_of_no_draw _ (by simp [hd1, hd2])
  · rw [run_after_trace, stops_after_close_head _ _ (by simp [hd1, hd2])]
    split_ifs with hc
    · apply quiet_after_draw_of_no_draw
      apply main_loops_no_draw_closed
      rw [wl_display_roundtrip_open, wl_display_roundtrip_open]
      simp only [List.any_append, Bool.or_eq_true] at hc
      rcases hc with (hc | hc) | hc
      · simp at hc
      · simp [hc]
      · simp [hc]
    · exact main_loops_stops_after_close lib _ _ _ _

theorem main_stops_after_close (lib : Lib) (env : Env) :
    stops_after_close (main lib env).trace = true := by
  by_cases h : env.display = NULL
  · rw [main_null lib env h]
    rfl
  · rw [main_eq lib env h]
    have hp := main_head_any lib env Act.is_draw (fun _ => rfl) (fun _ => rfl)
    have hq := main_head_any lib env Act.is_close (fun _ => rfl)
      (fun _ => rfl)
    split_ifs
    · apply stops_after_close_of_no_draw
      rw [run_after_trace, List.any_append, hp,
        out_any lib _ _ _ Act.is_draw (fun _ => rfl)]
      rfl
    · rw [run_after_trace, stops_after_close_head _ _ hp, hq]
      exact main_decorate_stops_after_close lib env _ _

/-! ## The claims about whole runs -/

/-- C1: in every run of `main`, whatever the library calls return and
whatever callbacks each dispatch and roundtrip delivers, each entry into
`draw` finds `window->configured` true, and `frame_configure` has been
entered before it. -/
theorem draw_only_when_configured (lib : Lib) (env : Env)
    (pre post : List Act) (window : Window)
    (h : (main lib env).trace = pre ++ Act.draw window :: post) :
    window.configured = true ∧
    ∃ frame configuration is_floating,
      Act.callback (Event.configure frame configuration is_floating) ∈ pre := by
  have := draws_configured_sound false _ pre post window
    (main_draws_configured lib env) h
  refine ⟨this.1, ?_⟩
  rcases this.2 with h1 | h1
  · cases h1
  · rw [List.any_eq_true] at h1
    obtain ⟨a, ha, hc⟩ := h1
    cases a with
    | callback e =>
      cases e with
      | configure frame configuration is_floating =>
        exact ⟨frame, configuration, is_floating, ha⟩
      | _ => cases hc
    | _ => cases hc

/-- C1 at a concrete input: the one entry into `draw` of the run `env_ok` is
entry 49 of the trace, and `frame_configure` is entered at entry 38. -/
theorem draw_only_when_configured_witness :
    window_drawn.configured = true ∧
    ∃ frame configuration is_floating,
      Act.callback (Event.configure frame configuration is_floating) ∈
        (main lib0 env_ok).trace.take 49 :=
  draw_only_when_configured lib0 env_ok ((main lib0 env_ok).trace.take 49)
    ((main lib0 env_ok).trace.drop 50) window_drawn (by rfl)

/-- C3: in the loop `while (window->open)`, an iteration whose
`libdecor_dispatch` returns zero or more enters `draw` once, right after the
dispatch and before the next iteration, and the dispatch itself enters `draw`
never; so the loop enters `draw` as many times as a dispatch returns zero or
more.  Each `draw` makes the same three calls: it clears to the colour with
red, green and blue 0x20/0xFF and alpha 1, whatever the window, and swaps the
`egl_surface` of the window once. -/
theorem draw_once_per_successful_dispatch (lib : Lib) (context : Ptr) :
    (∀ (d : Dispatch) (ds : List Dispatch) (window : Window),
      window.open_ = true →
      (libdecor_dispatch lib context d window).exited = false →
      0 ≤ d.ret →
      (draw_loop lib context (d :: ds) window).trace =
        (libdecor_dispatch lib context d window).trace ++
          Act.dispatched d.ret ::
            Act.draw (libdecor_dispatch lib context d window).window ::
              ((draw lib (libdecor_dispatch lib context d window).window).map
                  Act.call ++
                (draw_loop lib context ds
                  (libdecor_dispatch lib context d window).window).trace) ∧
      draws (libdecor_dispatch lib context d window).trace = 0) ∧
    (∀ (ds : List Dispatch) (window : Window),
      draws (draw_loop lib context ds window).trace =
        (draw_loop lib context ds window).trace.countP Act.is_success) ∧
    (∀ window : Window,
      draw lib window =
        [Call.glClearColor (0x20 / 0xFF) (0x20 / 0xFF) (0x20 / 0xFF) 1,
         Call.glClear lib.GL_COLOR_BUFFER_BIT,
         Call.eglSwapBuffers window.client.egl_display window.egl_surface] ∧
      draws ((draw lib window).map Act.call) = 0) := by
  refine ⟨?_, draw_loop_count lib context, fun window => ⟨rfl, rfl⟩⟩
  intro d ds window ho he hr
  refine ⟨?_, draws_eq_zero _ (libdecor_dispatch_any lib context Act.is_draw
    (fun _ => rfl) (fun _ => rfl) d window)⟩
  have hr2 : ¬ d.ret < 0 := by omega
  simp only [draw_loop, ho, he, hr2, if_true, if_false, Bool.false_eq_true]

/-- C3 at a concrete input: in the run `env_ok` the loop starts with the
configured window and two dispatches left. Both return 0, the first delivers
the close, and the loop enters `draw` once. -/
theorem draw_once_per_successful_dispatch_witness :
    draws (draw_loop lib0 12 [⟨[Event.close 13], 0⟩, ⟨[], 0⟩]
      window_configured).trace = 1 ∧
    (draw_loop lib0 12 [⟨[Event.close 13], 0⟩, ⟨[], 0⟩]
      window_configured).trace.countP Act.is_success = 1 :=
  ⟨by decide,
    ((draw_once_per_successful_dispatch lib0 12).2.1 _ _).symm.trans (by decide)⟩

/-- C4, as the code has it: a failure that `main` detects ends the run with
no dispatch and no draw after it.  When `wl_display_connect` returns null,
`main` prints "no wayland connection" and returns `EXIT_FAILURE` at once.
When `setup` returns false, `main` goes straight to the code after `out`
and returns: the run has printed a message and has no dispatch and no draw.
When a `libdecor_dispatch` returns a negative value, what follows has no
dispatch, no draw and no printing, and `main` returns `EXIT_FAILURE`. -/
theorem failure_ends_the_run (lib : Lib) (env : Env) :
    (env.display = NULL →
      main lib env =
        { outcome := Outcome.returned ExitCode.EXIT_FAILURE, window := none,
          trace :=
            [Act.call Call.wl_display_connect,
             Act.call (Call.fprintf_stderr "no wayland connection\n"),
             Act.call Call.free_client] }) ∧
    (env.display ≠ NULL →
      (setup lib env.setup (main_window (main_client lib env))).1 = false →
      (∃ ret,
        main lib env =
          Run.after (main_head lib env)
            (out lib NULL
              (setup lib env.setup (main_window (main_client lib env))).2.1
              ret)) ∧
      quiet (main lib env).trace = true ∧
      (main lib env).trace.any Act.is_print = true) ∧
    (∀ (pre post : List Act) (ret : Int),
      (main lib env).trace = pre ++ Act.dispatched ret :: post →
      ret < 0 →
      silent post = true ∧
      (main lib env).outcome = Outcome.returned ExitCode.EXIT_FAILURE) := by
  refine ⟨main_null lib env, ?_, ?_⟩
  · intro h hs
    rw [main_eq lib env h, if_pos hs]
    refine ⟨⟨_, rfl⟩, ?_, ?_⟩
    · rw [run_after_trace, quiet_append, main_head_quiet, out_quiet]
      rfl
    · rw [run_after_trace, List.any_append, main_head, List.any_append,
        setup_prints lib _ _ hs]
      simp
  · intro pre post ret h hr
    refine ⟨silent_after_failure_sound _ pre post ret hr
      (main_failure lib env).1 h, (main_failure lib env).2 ?_⟩
    rw [h]
    simp [hr]

/-- C4 at a concrete input: in the run `env_dispatch_fails` the first
dispatch returns -1; this is entry 34 of the trace. -/
theorem failure_ends_the_run_witness :
    silent ((main lib0 env_dispatch_fails).trace.drop 35) = true ∧
    (main lib0 env_dispatch_fails).outcome =
      Outcome.returned ExitCode.EXIT_FAILURE :=
  (failure_ends_the_run lib0 env_dispatch_fails).2.2
    ((main lib0 env_dispatch_fails).trace.take 34)
    ((main lib0 env_dispatch_fails).trace.drop 35) (-1) (by rfl) (by decide)

/-- C4 as stated fails: in the run `env_dispatch_fails` the display connects,
`setup` succeeds, the first `libdecor_dispatch` returns -1 and `main` returns
`EXIT_FAILURE`, and the run prints nothing at all. -/
theorem dispatch_failure_prints_nothing :
    (main lib0 env_dispatch_fails).trace.any Act.is_failure = true ∧
    (main lib0 env_dispatch_fails).outcome =
      Outcome.returned ExitCode.EXIT_FAILURE ∧
    (main lib0 env_dispatch_fails).trace.any Act.is_print = false := by
  refine ⟨by decide, by decide, by decide⟩

/-- C9: when `setup` returns false, `main` jumps to `out` with `ret` still
`EXIT_SUCCESS`: it returns `EXIT_SUCCESS` with the window still open.  In
the run `env_no_egl` the call `eglInitialize` fails, so `setup` returns
false, and `main` returns `EXIT_SUCCESS`. -/
theorem main_setup_failure_returns_success :
    (∀ (lib : Lib) (env : Env), env.display ≠ NULL →
      (setup lib env.setup (main_window (main_client lib env))).1 = false →
      (main lib env).outcome = Outcome.returned ExitCode.EXIT_SUCCESS ∧
      (main lib env).window.map Window.open_ = some true) ∧
    env_no_egl.display ≠ NULL ∧
    (setup lib0 env_no_egl.setup
      (main_window (main_client lib0 env_no_egl))).1 = false ∧
    (main lib0 env_no_egl).outcome = Outcome.returned ExitCode.EXIT_SUCCESS ∧
    (main lib0 env_no_egl).window.map Window.open_ = some true := by
  refine ⟨?_, by decide, by decide, by decide, by decide⟩
  intro lib env h hs
  rw [main_eq lib env h, if_pos hs]
  refine ⟨rfl, ?_⟩
  simp only [Run.after, out, Option.map_some']
  rw [(setup_configured lib _ _).2]
  rfl

/-- C6: `frame_close` sets `open` to false and changes nothing else, and it
makes no call.  No callback makes `open` true again.  With `open` false the
loop `while (window->open)` ends at its test, with no dispatch and no draw.
So in every run of `main`, at most one entry into `draw` follows an entry
into `frame_close`, and after that entry into `draw` there is no dispatch
and no further draw. -/
theorem close_ends_the_loop (lib : Lib) :
    (∀ (frame : Ptr) (window : Window),
      frame_close frame window = ({ window with open_ := false }, [])) ∧
    (∀ (e : Event) (window : Window),
      (invoke lib e window).1.open_ = true → window.open_ = true) ∧
    (∀ (context : Ptr) (ds : List Dispatch) (window : Window),
      window.open_ = false →
      draw_loop lib context ds window =
        { window := window, trace := [], next := Next.done, rest := ds }) ∧
    (∀ (env : Env) (pre post : List Act) (frame : Ptr),
      (main lib env).trace = pre ++ Act.callback (Event.close frame) :: post →
      draws post ≤ 1 ∧
      ∀ (a b : List Act) (window : Window),
        post = a ++ Act.draw window :: b → quiet b = true) := by
  refine ⟨fun _ _ => rfl, ?_, draw_loop_closed lib, ?_⟩
  · intro e window h
    rw [invoke_open] at h
    simp only [Bool.and_eq_true] at h
    exact h.1
  · intro env pre post frame h
    refine ⟨le_trans (draws_after_close_sound _ pre post frame h)
      (main_draws_after_close lib env), fun a b window hp => ?_⟩
    exact quiet_after_draw_sound post a b window
      (stops_after_close_sound _ pre post frame
        (main_stops_after_close lib env) h) hp

/-- C6 at a concrete input: in the run `env_ok` the close is entry 47 of the
trace, one entry into `draw` follows it, at entry 49, and what comes after
that is quiet. -/
theorem close_ends_the_loop_witness :
    draws ((main lib0 env_ok).trace.drop 48) = 1 ∧
    quiet ((main lib0 env_ok).trace.drop 50) = true :=
  ⟨by decide,
    ((close_ends_the_loop lib0).2.2.2 env_ok ((main lib0 env_ok).trace.take 47)
      ((main lib0 env_ok).trace.drop 48) 13 (by rfl)).2
      [Act.dispatched 0] ((main lib0 env_ok).trace.drop 50) window_drawn
      (by rfl)⟩

end BugRepro
